import Mathlib

/-!
Verification of the static-analysis layer of the smolagents-mcp-demo
repository: a shallow embedding, in Lean 4, of the analyzer functions of
`server/code_metrics_server/code_metrics_server.py` and
`server/code_security_server/code_security_server.py`, together with
theorems about the specified behaviour.

Conventions of the embedding:
* Python strings are Lean `String` / `List Char`; Python `int` scores are
  `Int`/`Nat` (with `max 0 _` translated as stated in the source); Python
  `float` ratio fields are modelled as exact rationals `ℚ` (the source
  only ever adds, multiplies and divides decimal constants, which is
  exact in `ℚ`; IEEE rounding of these small values is abstracted away,
  and the `round(x, k)` display rounding of the source is not applied).
* `ast.parse` (CPython library code, not part of the repository) is a
  parameter `parse : String → ParseRes` of the tree-based analyzers; a
  Python AST is the inductive `PyNode` below, and `ast.walk`-style node
  counting is the fold `visitN`/`collectN` (CPython walks breadth-first;
  the fold is depth-first, which yields the same node multiset, and every
  use below is an order-insensitive count).
* Python `re` pattern matching (`re.finditer` / `re.sub` with
  `re.IGNORECASE | re.MULTILINE`) is implemented by a small backtracking
  engine over exactly the atom shapes used by the security scanners:
  case-insensitive literals, literal alternations `(?:a|b)`, and
  quantified character classes.  The engine enumerates parses in Python's
  priority order (leftmost match, greedy quantifiers, alternatives in
  listed order); the scanner patterns contain no anchors, groups,
  lookaround or other features.
* A value that is not a string is modelled by `PyValue.pyInt`; calling
  `len` or a `re` function on it raises `TypeError`, modelled by the
  `Except PyExn` result of the analyzer wrappers.
-/

/-! ### Characters and small string helpers -/

/-- The double-quote character. -/
def dqChar : Char := Char.ofNat 34

/-- The single-quote (apostrophe) character. -/
def sqChar : Char := Char.ofNat 39

/-- The left-brace character. -/
def lbChar : Char := Char.ofNat 123

/-- The right-brace character. -/
def rbChar : Char := Char.ofNat 125

/-- The backslash character. -/
def bsChar : Char := Char.ofNat 92

/-- The newline character. -/
def nlChar : Char := Char.ofNat 10

/-- A quote character (double or single), the class `["\']` of the scanners. -/
def isQuoteChar (c : Char) : Bool := c = dqChar || c = sqChar

/-- Python `\s` for the ASCII range: space, tab, newline, CR, FF, VT. -/
def isPyWs (c : Char) : Bool :=
  c = ' ' || c = Char.ofNat 9 || c = Char.ofNat 10 || c = Char.ofNat 13 ||
  c = Char.ofNat 12 || c = Char.ofNat 11

/-- ASCII lowercase letter. -/
def isLowerAZ (c : Char) : Bool := 'a' ≤ c && c ≤ 'z'

/-- ASCII uppercase letter. -/
def isUpperAZ (c : Char) : Bool := 'A' ≤ c && c ≤ 'Z'

/-- ASCII digit. -/
def isDigit09 (c : Char) : Bool := '0' ≤ c && c ≤ '9'

/-- ASCII letter. -/
def isLetterAZ (c : Char) : Bool := isLowerAZ c || isUpperAZ c

/-- ASCII alphanumeric, the class `[a-zA-Z0-9]`. -/
def isAlnumAZ09 (c : Char) : Bool := isLetterAZ c || isDigit09 c

/-- Python `\w` over ASCII: letters, digits and underscore
    (used by the `\b` word-boundary checks). -/
def isWordChar (c : Char) : Bool := isAlnumAZ09 c || c = '_'

/-- Lower-casing of an ASCII character, for `re.IGNORECASE` comparisons. -/
def lowerAscii (c : Char) : Char :=
  if isUpperAZ c then Char.ofNat (c.toNat + 32) else c

/-- Substring test on character lists, the Python `needle in haystack`. -/
def isSubListOf (needle : List Char) : List Char → Bool
  | [] => decide (needle = [])
  | c :: t => (needle.isPrefixOf (c :: t)) || isSubListOf needle t

/-- Substring test on strings, the Python `needle in haystack`. -/
def strContains (haystack needle : String) : Bool :=
  isSubListOf needle.toList haystack.toList

/-- Python `line.rstrip() != line`: the line ends in a whitespace character. -/
def hasTrailingWs (line : String) : Bool :=
  match line.toList.reverse with
  | [] => false
  | c :: _ => isPyWs c

/-- Python `str.strip()`: remove leading and trailing whitespace.
    (Implemented on the character list; `String.trim` has the same
    meaning on ASCII input but does not reduce inside the kernel.) -/
def pyStrip (s : String) : String :=
  String.mk (((s.toList.dropWhile isPyWs).reverse.dropWhile isPyWs).reverse)

/-- Python `s.startswith(pre)`. -/
def pyStartsWith (s pre : String) : Bool :=
  pre.toList.isPrefixOf s.toList

/-- Split a character list at newlines (`str.split("\n")` semantics:
    the empty input yields one empty chunk). -/
def splitNl : List Char → List (List Char)
  | [] => [[]]
  | c :: t =>
    if c = nlChar then [] :: splitNl t
    else
      match splitNl t with
      | h :: r => (c :: h) :: r
      | [] => [[c]]

/-- Python `str.split("\n")`, including `"".split("\n") == [""]`. -/
def pySplitLines (s : String) : List String := (splitNl s.toList).map String.mk

/-- Fuelled worker for `firstDedup` (the fuel, at least the list length,
    makes the recursion structural so that it evaluates in the kernel). -/
def firstDedupF : Nat → List String → List String
  | 0, _ => []
  | _ + 1, [] => []
  | f + 1, a :: l => a :: firstDedupF f (l.filter (fun b => b ≠ a))

/-- Deduplication keeping the first occurrence of each element, the key
    order of a Python `Counter`/`dict` built by insertion. -/
def firstDedup (l : List String) : List String := firstDedupF l.length l

/-! ### The Python AST embedding

One constructor per `ast` node kind inspected by the analyzers.  Optional
children (`ExceptHandler.type`, `Return.value`, `Raise.exc`) are modelled
as lists of length at most one (`[]` is Python `None`).  `pConst` carries
`isStr` (whether the constant is a `str`, as tested by `ast.get_docstring`)
and the Python `str(node.value)` rendering used as a Halstead operand.
Fields of the real nodes that no analyzer inspects (decorators, argument
defaults, comparison operators, ...) are not modelled. -/

inductive PyNode where
  | pModule (body : List PyNode)
  | pFunctionDef (nm : String) (args : List PyNode) (body : List PyNode)
  | pAsyncFunctionDef (nm : String) (args : List PyNode) (body : List PyNode)
  | pClassDef (nm : String) (body : List PyNode)
  | pIf (test : PyNode) (body : List PyNode) (orelse : List PyNode)
  | pWhile (test : PyNode) (body : List PyNode) (orelse : List PyNode)
  | pFor (tgt : PyNode) (iter : PyNode) (body : List PyNode) (orelse : List PyNode)
  | pAsyncFor (tgt : PyNode) (iter : PyNode) (body : List PyNode) (orelse : List PyNode)
  | pTry (body : List PyNode) (handlers : List PyNode) (orelse : List PyNode) (finalBody : List PyNode)
  | pExceptHandler (etype : List PyNode) (body : List PyNode)
  | pWith (items : List PyNode) (body : List PyNode)
  | pAsyncWith (items : List PyNode) (body : List PyNode)
  | pBoolOp (values : List PyNode)
  | pAssert (test : PyNode)
  | pReturn (val : List PyNode)
  | pRaise (exc : List PyNode)
  | pImport
  | pImportFrom
  | pAssign (tgts : List PyNode) (val : PyNode)
  | pCall (fn : PyNode) (args : List PyNode)
  | pName (id : String)
  | pArg (nm : String)
  | pConst (isStr : Bool) (v : String)
  | pBinOp (a : PyNode) (b : PyNode)
  | pUnaryOp (a : PyNode)
  | pCompare (a : PyNode) (rest : List PyNode)
  | pExprStmt (e : PyNode)
  | pPass
  deriving Repr

/- `visitN f t` is the sum of `f` over every node of the tree (the node
itself and all descendants): the `for node in ast.walk(tree)`
accumulation pattern. -/
mutual

def visitN (f : PyNode → Nat) : PyNode → Nat
  | .pModule b => f (.pModule b) + visitL f b
  | .pFunctionDef nm a b => f (.pFunctionDef nm a b) + visitL f a + visitL f b
  | .pAsyncFunctionDef nm a b => f (.pAsyncFunctionDef nm a b) + visitL f a + visitL f b
  | .pClassDef nm b => f (.pClassDef nm b) + visitL f b
  | .pIf t b o => f (.pIf t b o) + visitN f t + visitL f b + visitL f o
  | .pWhile t b o => f (.pWhile t b o) + visitN f t + visitL f b + visitL f o
  | .pFor tg it b o => f (.pFor tg it b o) + visitN f tg + visitN f it + visitL f b + visitL f o
  | .pAsyncFor tg it b o => f (.pAsyncFor tg it b o) + visitN f tg + visitN f it + visitL f b + visitL f o
  | .pTry b h o fb => f (.pTry b h o fb) + visitL f b + visitL f h + visitL f o + visitL f fb
  | .pExceptHandler e b => f (.pExceptHandler e b) + visitL f e + visitL f b
  | .pWith i b => f (.pWith i b) + visitL f i + visitL f b
  | .pAsyncWith i b => f (.pAsyncWith i b) + visitL f i + visitL f b
  | .pBoolOp vs => f (.pBoolOp vs) + visitL f vs
  | .pAssert t => f (.pAssert t) + visitN f t
  | .pReturn v => f (.pReturn v) + visitL f v
  | .pRaise e => f (.pRaise e) + visitL f e
  | .pImport => f .pImport
  | .pImportFrom => f .pImportFrom
  | .pAssign tg v => f (.pAssign tg v) + visitL f tg + visitN f v
  | .pCall fn a => f (.pCall fn a) + visitN f fn + visitL f a
  | .pName i => f (.pName i)
  | .pArg nm => f (.pArg nm)
  | .pConst b v => f (.pConst b v)
  | .pBinOp a b => f (.pBinOp a b) + visitN f a + visitN f b
  | .pUnaryOp a => f (.pUnaryOp a) + visitN f a
  | .pCompare a r => f (.pCompare a r) + visitN f a + visitL f r
  | .pExprStmt e => f (.pExprStmt e) + visitN f e
  | .pPass => f .pPass

def visitL (f : PyNode → Nat) : List PyNode → Nat
  | [] => 0
  | t :: ts => visitN f t + visitL f ts

end

/- `collectN g t` is the concatenation of `g` over every node of the
tree, in depth-first order: the `ast.walk` collection pattern for
identifier lists and Halstead operator/operand lists. -/
mutual

def collectN (g : PyNode → List String) : PyNode → List String
  | .pModule b => g (.pModule b) ++ collectL g b
  | .pFunctionDef nm a b => g (.pFunctionDef nm a b) ++ collectL g a ++ collectL g b
  | .pAsyncFunctionDef nm a b => g (.pAsyncFunctionDef nm a b) ++ collectL g a ++ collectL g b
  | .pClassDef nm b => g (.pClassDef nm b) ++ collectL g b
  | .pIf t b o => g (.pIf t b o) ++ collectN g t ++ collectL g b ++ collectL g o
  | .pWhile t b o => g (.pWhile t b o) ++ collectN g t ++ collectL g b ++ collectL g o
  | .pFor tg it b o => g (.pFor tg it b o) ++ collectN g tg ++ collectN g it ++ collectL g b ++ collectL g o
  | .pAsyncFor tg it b o => g (.pAsyncFor tg it b o) ++ collectN g tg ++ collectN g it ++ collectL g b ++ collectL g o
  | .pTry b h o fb => g (.pTry b h o fb) ++ collectL g b ++ collectL g h ++ collectL g o ++ collectL g fb
  | .pExceptHandler e b => g (.pExceptHandler e b) ++ collectL g e ++ collectL g b
  | .pWith i b => g (.pWith i b) ++ collectL g i ++ collectL g b
  | .pAsyncWith i b => g (.pAsyncWith i b) ++ collectL g i ++ collectL g b
  | .pBoolOp vs => g (.pBoolOp vs) ++ collectL g vs
  | .pAssert t => g (.pAssert t) ++ collectN g t
  | .pReturn v => g (.pReturn v) ++ collectL g v
  | .pRaise e => g (.pRaise e) ++ collectL g e
  | .pImport => g .pImport
  | .pImportFrom => g .pImportFrom
  | .pAssign tg v => g (.pAssign tg v) ++ collectL g tg ++ collectN g v
  | .pCall fn a => g (.pCall fn a) ++ collectN g fn ++ collectL g a
  | .pName i => g (.pName i)
  | .pArg nm => g (.pArg nm)
  | .pConst b v => g (.pConst b v)
  | .pBinOp a b => g (.pBinOp a b) ++ collectN g a ++ collectN g b
  | .pUnaryOp a => g (.pUnaryOp a) ++ collectN g a
  | .pCompare a r => g (.pCompare a r) ++ collectN g a ++ collectL g r
  | .pExprStmt e => g (.pExprStmt e) ++ collectN g e
  | .pPass => g .pPass

def collectL (g : PyNode → List String) : List PyNode → List String
  | [] => []
  | t :: ts => collectN g t ++ collectL g ts

end

/-! ### Inputs, parse outcomes and error records -/

/-- The tool-call argument: either a Python `str`, or (`pyInt`) a
    representative non-string value, on which `len(...)` and the `re`
    functions raise `TypeError`. -/
inductive PyValue where
  | pyStr (s : String)
  | pyInt (n : Int)

/-- An exception crossing an analyzer boundary. -/
inductive PyExn where
  | typeErr
  deriving Repr, DecidableEq

/-- Outcome of `ast.parse`.  CPython raises `SyntaxError` on malformed
    input; `IndentationError` is a subclass of `SyntaxError`, so the
    analyzers' `except SyntaxError` clause (which precedes their
    `except IndentationError` clause) catches both and the dedicated
    indentation branch of the source is unreachable.  A single `failed`
    constructor therefore suffices; it carries `str(e)` and the
    best-effort `lineno`/`offset`/`text` attributes (`none` when the
    attribute is absent, rendered as `"unknown"` by the source). -/
inductive ParseRes where
  | parsed (t : PyNode)
  | failed (msg : String) (line : Option Nat) (offset : Option Nat) (txt : Option String)

/-- The structured error records returned (not raised) by the tree-based
    metrics analyzers: `{"error": "Invalid input type", ...}`,
    `{"error": "Empty input", ...}` and
    `{"error": "Invalid Python syntax", "details", "line", "offset",
    "text"}`. -/
inductive MetricsErr where
  | badType
  | emptyIn
  | badSyn (msg : String) (line : Option Nat) (offset : Option Nat) (txt : Option String)
  deriving Repr, DecidableEq

/-- Result of a tree-based metrics analyzer: a normal report or a
    structured error record, always returned, never raised. -/
inductive MOut (R : Type) where
  | ok (r : R)
  | err (e : MetricsErr)
  deriving Repr, DecidableEq

/-! ### Advisory warnings (the `syntax_issues` lists)

The source collects warning strings built with f-strings; the embedding
keeps them as structured values (the claims never inspect the rendered
text). -/

/-- One advisory warning: `Leading zeros in integer literals: [...]`,
    `Potential unmatched quotes at line i`, or
    `Mixed tabs and spaces at line i`. -/
inductive Warn where
  | leadingZeros (ms : List String)
  | unmatchedQuotes (line : Nat)
  | mixedTabs (line : Nat)
  deriving Repr, DecidableEq

/-- The tab character. -/
def tabChar : Char := Char.ofNat 9

/-- `re.findall(r"\b0[0-9]+\b", code)`: scan for maximal digit runs that
    start with `0`, have length at least 2, and sit between word
    boundaries.  The second argument records whether the previous
    character was a word character. -/
def lzScanF : Nat → List Char → Bool → List String
  | 0, _, _ => []
  | _ + 1, [], _ => []
  | f + 1, c :: t, prevW =>
    if !prevW && isDigit09 c then
      let ds := t.takeWhile isDigit09
      let rest := t.drop ds.length
      let hit := c = '0' && decide (1 ≤ ds.length) &&
        (match rest with | [] => true | d :: _ => !isWordChar d)
      (if hit then [String.mk (c :: ds)] else []) ++ lzScanF f rest true
    else lzScanF f t (isWordChar c)

/-- The wrapper with enough fuel for the whole input. -/
def lzScan (l : List Char) (prevW : Bool) : List String := lzScanF l.length l prevW

/-- The leading-zero warning, when any `\b0[0-9]+\b` match exists. -/
def leadingZeroWarn (code : String) : List Warn :=
  let ms := lzScan code.toList false
  if ms = [] then [] else [.leadingZeros ms]

/-- Number of occurrences of a character in a string. -/
def countCharIn (c : Char) (s : String) : Nat := s.toList.count c

/-- The per-line unmatched-quote check of the coverage/naming/
    maintainability/error-handling analyzers. -/
def quoteWarns (lines : List String) : List Warn :=
  lines.enum.filterMap (fun il =>
    if countCharIn sqChar il.2 % 2 ≠ 0 || countCharIn dqChar il.2 % 2 ≠ 0 then
      some (.unmatchedQuotes (il.1 + 1))
    else none)

/-- The per-line mixed-tabs-and-spaces check of the complexity analyzer:
    fires on a non-blank line that starts with a space or tab, contains a
    tab, and has a space inside its leading-whitespace prefix. -/
def mixedTabWarns (lines : List String) : List Warn :=
  lines.enum.filterMap (fun il =>
    let l := il.2.toList
    let leadWs := l.takeWhile isPyWs
    let startsIndented := match l with
      | c :: _ => c = ' ' || c = tabChar
      | [] => false
    if pyStrip il.2 ≠ "" && startsIndented && l.contains tabChar && leadWs.contains ' ' then
      some (.mixedTabs (il.1 + 1))
    else none)

/-- `syntax_issues` of `calculate_code_complexity`: leading zeros, then
    the mixed-tabs lines. -/
def complexitySynIssues (code : String) : List Warn :=
  leadingZeroWarn code ++ mixedTabWarns (pySplitLines code)

/-- `syntax_issues` of the coverage/naming/maintainability/error-handling
    analyzers: leading zeros, then the unmatched-quote lines. -/
def quoteSynIssues (code : String) : List Warn :=
  leadingZeroWarn code ++ quoteWarns (pySplitLines code)

/-- The `warnings` result field: the list when non-empty, Python `None`
    otherwise. -/
def warnField (issues : List Warn) : Option (List Warn) :=
  if issues = [] then none else some issues

/-! ### `calculate_code_complexity` -/

/-- Per-node contribution of the complexity walk: `+1` for
    `If/While/For/AsyncFor`, `ExceptHandler`, `With`, `AsyncWith`,
    `Assert` and `Raise`, `len(values) - 1` for `BoolOp`, nothing for
    `Return` (and everything else). -/
def cxContrib : PyNode → Nat
  | .pIf _ _ _ | .pWhile _ _ _ | .pFor _ _ _ _ | .pAsyncFor _ _ _ _ => 1
  | .pExceptHandler _ _ => 1
  | .pWith _ _ => 1
  | .pAsyncWith _ _ => 1
  | .pBoolOp vs => vs.length - 1
  | .pAssert _ => 1
  | .pRaise _ => 1
  | _ => 0

/-- `complexity = 1` (base) plus the walk contributions. -/
def cyclomaticOf (t : PyNode) : Nat := 1 + visitN cxContrib t

/-- Count of `ast.FunctionDef` nodes (`AsyncFunctionDef` is a distinct
    class and is not counted, as in the source's `isinstance` test). -/
def countFunctionDefs (t : PyNode) : Nat :=
  visitN (fun n => match n with | .pFunctionDef _ _ _ => 1 | _ => 0) t

/-- Count of `ast.ClassDef` nodes. -/
def countClassDefs (t : PyNode) : Nat :=
  visitN (fun n => match n with | .pClassDef _ _ => 1 | _ => 0) t

/-- Count of `ast.Import`/`ast.ImportFrom` nodes. -/
def countImports (t : PyNode) : Nat :=
  visitN (fun n => match n with | .pImport | .pImportFrom => 1 | _ => 0) t

/-- Count of `ast.Assign` nodes. -/
def countAssigns (t : PyNode) : Nat :=
  visitN (fun n => match n with | .pAssign _ _ => 1 | _ => 0) t

/-- Count of `ast.Call` nodes. -/
def countCalls (t : PyNode) : Nat :=
  visitN (fun n => match n with | .pCall _ _ => 1 | _ => 0) t

/-- `complexity_level`: `<= 5` low, `<= 10` medium, else high. -/
def cxLevel (c : Nat) : String :=
  if c ≤ 5 then "low" else if c ≤ 10 then "medium" else "high"

/-- The complexity report. -/
structure ComplexityRec where
  cyclomaticComplexity : Nat
  functionCount : Nat
  classCount : Nat
  importCount : Nat
  assignmentCount : Nat
  callCount : Nat
  complexityLevel : String
  warnings : Option (List Warn)
  deriving Repr, DecidableEq

/-- `calculate_code_complexity`: reject non-strings and blank input,
    collect advisory warnings, parse, then walk the tree.  (The source's
    `dangerous_patterns` scan only writes log lines and affects no
    output, so it has no counterpart here.) -/
def calculate_code_complexity (parse : String → ParseRes) : PyValue → MOut ComplexityRec
  | .pyInt _ => .err .badType
  | .pyStr code =>
    if pyStrip code = "" then .err .emptyIn
    else
      let issues := complexitySynIssues code
      match parse code with
      | .failed msg l o tx => .err (.badSyn msg l o tx)
      | .parsed t =>
        .ok { cyclomaticComplexity := cyclomaticOf t
              functionCount := countFunctionDefs t
              classCount := countClassDefs t
              importCount := countImports t
              assignmentCount := countAssigns t
              callCount := countCalls t
              complexityLevel := cxLevel (cyclomaticOf t)
              warnings := warnField issues }

/-! ### `measure_code_coverage_metrics` -/

/-- Count of `ast.If` nodes. -/
def countIfs (t : PyNode) : Nat :=
  visitN (fun n => match n with | .pIf _ _ _ => 1 | _ => 0) t

/-- Count of `ast.For` nodes (`AsyncFor` is a distinct class, not counted
    here). -/
def countFors (t : PyNode) : Nat :=
  visitN (fun n => match n with | .pFor _ _ _ _ => 1 | _ => 0) t

/-- Count of `ast.While` nodes. -/
def countWhiles (t : PyNode) : Nat :=
  visitN (fun n => match n with | .pWhile _ _ _ => 1 | _ => 0) t

/-- Count of `ast.Try` nodes. -/
def countTrys (t : PyNode) : Nat :=
  visitN (fun n => match n with | .pTry _ _ _ _ => 1 | _ => 0) t

/-- Count of `ast.ExceptHandler` nodes. -/
def countHandlers (t : PyNode) : Nat :=
  visitN (fun n => match n with | .pExceptHandler _ _ => 1 | _ => 0) t

/-- Count of `ast.Raise` nodes. -/
def countRaises (t : PyNode) : Nat :=
  visitN (fun n => match n with | .pRaise _ => 1 | _ => 0) t

/-- Count of `ast.Assert` nodes. -/
def countAsserts (t : PyNode) : Nat :=
  visitN (fun n => match n with | .pAssert _ => 1 | _ => 0) t

/-- The coverage report.  (The source also tallies `with`/`return`/
    `raise`/`assert` statements into its local `statements` dict, but
    those four tallies are never used in the result.) -/
structure CoverageRec where
  branchComplexity : Nat
  conditionalStatements : Nat
  loopStatements : Nat
  exceptionHandling : Nat
  testabilityScore : Int
  coverageRisk : String
  warnings : Option (List Warn)
  deriving Repr, DecidableEq

/-- `measure_code_coverage_metrics`. -/
def measure_code_coverage_metrics (parse : String → ParseRes) : PyValue → MOut CoverageRec
  | .pyInt _ => .err .badType
  | .pyStr code =>
    if pyStrip code = "" then .err .emptyIn
    else
      let issues := quoteSynIssues code
      match parse code with
      | .failed msg l o tx => .err (.badSyn msg l o tx)
      | .parsed t =>
        let nIf := countIfs t
        let nFor := countFors t
        let nWhile := countWhiles t
        let nTry := countTrys t
        let nExc := countHandlers t
        let bc := nIf + nFor + nWhile
        let ts : Int := 100 - (if 10 < nIf then 20 else 0)
          - (if 5 < nTry then 15 else 0) - (if 20 < bc then 25 else 0)
        .ok { branchComplexity := bc
              conditionalStatements := nIf
              loopStatements := nFor + nWhile
              exceptionHandling := nTry + nExc
              testabilityScore := max 0 ts
              coverageRisk := if 15 < bc then "high" else if 8 < bc then "medium" else "low"
              warnings := warnField issues }

/-! ### `analyze_naming_conventions` -/

/-- One entry of the `naming_issues` list (the source stores rendered
    f-strings; the embedding keeps the kind and the offending name). -/
inductive NIssue where
  | tooShort (nm : String)
  | tooLong (nm : String)
  | poorConv (nm : String)
  | singleLetter (nm : String)
  deriving Repr, DecidableEq

/-- `re.match(r"^[a-z_][a-z0-9_]*$", name)`. -/
def lowerConvMatch : List Char → Bool
  | [] => false
  | c :: t => (isLowerAZ c || c = '_') &&
      t.all (fun d => isLowerAZ d || isDigit09 d || d = '_')

/-- `re.match(r"^[A-Z][a-zA-Z0-9]*$", name)`. -/
def classConvMatch : List Char → Bool
  | [] => false
  | c :: t => isUpperAZ c && t.all isAlnumAZ09

/-- The first classification loop over a collected name: too short
    (length < 2), too long (length > 30), or a good function/variable or
    class name (`none`), else a poor-naming-convention issue. -/
def nameIssue1 (nm : String) : Option NIssue :=
  if nm.length < 2 then some (.tooShort nm)
  else if 30 < nm.length then some (.tooLong nm)
  else if lowerConvMatch nm.toList && !pyStartsWith nm "_" then none
  else if classConvMatch nm.toList then none
  else some (.poorConv nm)

/-- The fixed anti-pattern identifier set. -/
def antiPatterns : List String := ["l", "O", "I", "a", "b", "x", "y", "z"]

/-- The second loop: flag every single-character anti-pattern name. -/
def nameIssue2 (nm : String) : Option NIssue :=
  if nm ∈ antiPatterns && nm.length = 1 then some (.singleLetter nm) else none

/-- The whole `naming_issues` list: the first loop over all names, then
    the second loop over all names. -/
def namingIssuesOf (names : List String) : List NIssue :=
  names.filterMap nameIssue1 ++ names.filterMap nameIssue2

/-- The `good_names` list: names classified good by the first loop. -/
def goodNamesOf (names : List String) : List String :=
  names.filter (fun nm => nameIssue1 nm = none)

/-- `naming_score = max(0, 100 - len(issues) * 5)`. -/
def namingScoreOf (names : List String) : Int :=
  max 0 (100 - 5 * ((namingIssuesOf names).length : Int))

/-- The names collected from the tree: every `Name` reference,
    `FunctionDef` name, `ClassDef` name and `arg` name. -/
def collectNames (t : PyNode) : List String :=
  collectN (fun n => match n with
    | .pName i => [i]
    | .pFunctionDef nm _ _ => [nm]
    | .pClassDef nm _ => [nm]
    | .pArg a => [a]
    | _ => []) t

/-- The naming report.  `conventionCompliance` is the percentage of good
    names (100 on an empty collection); the source's `round(..., 1)`
    display rounding is not applied. -/
structure NamingRec where
  totalIdentifiers : Nat
  goodNames : Nat
  namingIssues : List NIssue
  namingScore : Int
  conventionCompliance : ℚ
  warnings : Option (List Warn)
  deriving Repr, DecidableEq

/-- `analyze_naming_conventions`. -/
def analyze_naming_conventions (parse : String → ParseRes) : PyValue → MOut NamingRec
  | .pyInt _ => .err .badType
  | .pyStr code =>
    if pyStrip code = "" then .err .emptyIn
    else
      let issues := quoteSynIssues code
      match parse code with
      | .failed msg l o tx => .err (.badSyn msg l o tx)
      | .parsed t =>
        let names := collectNames t
        .ok { totalIdentifiers := names.length
              goodNames := (goodNamesOf names).length
              namingIssues := namingIssuesOf names
              namingScore := namingScoreOf names
              conventionCompliance :=
                if names.length ≠ 0 then
                  ((goodNamesOf names).length : ℚ) * 100 / (names.length : ℚ)
                else 100
              warnings := warnField issues }

/-! ### `calculate_maintainability_index` -/

/-- Halstead "operators": one entry (the node-type name) per `BinOp`,
    `UnaryOp` or `Compare` node. -/
def halsteadOps (t : PyNode) : List String :=
  collectN (fun n => match n with
    | .pBinOp _ _ => ["BinOp"]
    | .pUnaryOp _ => ["UnaryOp"]
    | .pCompare _ _ => ["Compare"]
    | _ => []) t

/-- Halstead "operands": `node.id` per `Name`, `str(node.value)` per
    `Constant`. -/
def halsteadOperands (t : PyNode) : List String :=
  collectN (fun n => match n with
    | .pName i => [i]
    | .pConst _ v => [v]
    | _ => []) t

/-- Sum of `len(node.body)` over all `FunctionDef` nodes. -/
def totalFnBodyLen (t : PyNode) : Nat :=
  visitN (fun n => match n with | .pFunctionDef _ _ b => b.length | _ => 0) t

/-- The maintainability report; ratio/average/index fields are exact
    rationals (`5.2 = 26/5`, `0.23 = 23/100`, `16.2 = 81/5`), and
    `round(..., k)` display rounding is not applied. -/
structure MaintainabilityRec where
  linesOfCode : Nat
  nonEmptyLines : Nat
  commentRat : ℚ
  functionCount : Nat
  avgFunctionLen : ℚ
  maintIndex : ℚ
  maintLevel : String
  warnings : Option (List Warn)
  deriving Repr, DecidableEq

/-- `calculate_maintainability_index`.  `int.bit_length()` is `Nat.size`. -/
def calculate_maintainability_index (parse : String → ParseRes) : PyValue → MOut MaintainabilityRec
  | .pyInt _ => .err .badType
  | .pyStr code =>
    if pyStrip code = "" then .err .emptyIn
    else
      let issues := quoteSynIssues code
      match parse code with
      | .failed msg l o tx => .err (.badSyn msg l o tx)
      | .parsed t =>
        let lines := pySplitLines code
        let loc := lines.length
        let nonEmpty := (lines.filter (fun l => pyStrip l ≠ "")).length
        let commentLines := (lines.filter (fun l => pyStartsWith (pyStrip l) "#")).length
        let commentRat : ℚ := if 0 < nonEmpty then (commentLines : ℚ) / (nonEmpty : ℚ) else 0
        let fnCount := countFunctionDefs t
        let avgLen : ℚ := if 0 < fnCount then (totalFnBodyLen t : ℚ) / (fnCount : ℚ) else 0
        let ops := halsteadOps t
        let operands := halsteadOperands t
        let uOps := ops.dedup.length
        let uOperands := operands.dedup.length
        let totOps := ops.length
        let totOperands := operands.length
        let volume : Nat := (totOps + totOperands) * Nat.size (uOps + uOperands)
        let difficulty : ℚ :=
          if 0 < uOperands then ((uOps : ℚ) / 2) * ((totOperands : ℚ) / (uOperands : ℚ)) else 0
        let mi : ℚ := max 0 (171 - (26 / 5) * (Nat.size volume : ℚ)
          - (23 / 100) * difficulty - (81 / 5) * avgLen)
        .ok { linesOfCode := loc
              nonEmptyLines := nonEmpty
              commentRat := commentRat
              functionCount := fnCount
              avgFunctionLen := avgLen
              maintIndex := mi
              maintLevel :=
                if 85 < mi then "excellent"
                else if 65 < mi then "good"
                else if 25 < mi then "fair"
                else "poor"
              warnings := warnField issues }

/-! ### `analyze_error_handling` -/

/-- Count of bare `except:` handlers (`node.type is None`). -/
def countBareExc (t : PyNode) : Nat :=
  visitN (fun n => match n with | .pExceptHandler [] _ => 1 | _ => 0) t

/-- Count of typed `except` handlers. -/
def countSpecificExc (t : PyNode) : Nat :=
  visitN (fun n => match n with | .pExceptHandler (_ :: _) _ => 1 | _ => 0) t

/-- The error-handling report. -/
structure ErrHandlingRec where
  tryBlocks : Nat
  exceptBlocks : Nat
  raiseStatements : Nat
  assertStatements : Nat
  specificExceptions : Nat
  bareExcepts : Nat
  properErrorHandling : Bool
  errorHandlingScore : Int
  robustnessLevel : String
  warnings : Option (List Warn)
  deriving Repr, DecidableEq

/-- `analyze_error_handling`.  The reported score is `max(0, score)`, but
    the robustness level is bucketed from the raw score variable. -/
def analyze_error_handling (parse : String → ParseRes) : PyValue → MOut ErrHandlingRec
  | .pyInt _ => .err .badType
  | .pyStr code =>
    if pyStrip code = "" then .err .emptyIn
    else
      let issues := quoteSynIssues code
      match parse code with
      | .failed msg l o tx => .err (.badSyn msg l o tx)
      | .parsed t =>
        let nTry := countTrys t
        let nExc := countHandlers t
        let nRaise := countRaises t
        let nAssert := countAsserts t
        let nBare := countBareExc t
        let nSpec := countSpecificExc t
        let score : Int := 100 - (if 0 < nBare then 20 * (nBare : Int) else 0)
          - (if nTry = 0 && 0 < nRaise then 30 else 0)
          - (if 5 < nAssert then 15 else 0)
        .ok { tryBlocks := nTry
              exceptBlocks := nExc
              raiseStatements := nRaise
              assertStatements := nAssert
              specificExceptions := nSpec
              bareExcepts := nBare
              properErrorHandling := if 0 < nExc then nBare < nSpec else true
              errorHandlingScore := max 0 score
              robustnessLevel :=
                if 85 < score then "excellent"
                else if 70 < score then "good"
                else if 50 < score then "fair"
                else "poor"
              warnings := warnField issues }

/-! ### `analyze_code_style` -/

/-- One entry of the `style_issues` list. -/
inductive StyleIssue where
  | longLines (ls : List Nat)
  | trailingWs (ls : List Nat)
  | mixedTabs
  deriving Repr, DecidableEq

/-- The style report. -/
structure StyleRec where
  totalLines : Nat
  blankLines : Nat
  blankRat : ℚ
  styleIssues : List StyleIssue
  styleScore : Int
  deriving Repr, DecidableEq

/-- The body of `analyze_code_style` (which has no input pre-scan and no
    parser dependency): long lines, trailing whitespace, mixed tabs and
    spaces; each issue category found subtracts 10 from 100. -/
def styleCore (code : String) : StyleRec :=
  let lines := pySplitLines code
  let longLines : List Nat := lines.enum.filterMap
    (fun il => if 79 < il.2.length then some (il.1 + 1) else none)
  let trailing : List Nat := lines.enum.filterMap
    (fun il => if hasTrailingWs il.2 then some (il.1 + 1) else none)
  let hasTabs := lines.any (fun l => l.toList.contains tabChar)
  let hasSpaces := lines.any (fun l => pyStartsWith l " ")
  let issues : List StyleIssue :=
    (if longLines ≠ [] then [.longLines longLines] else []) ++
    (if trailing ≠ [] then [.trailingWs trailing] else []) ++
    (if hasTabs && hasSpaces then [.mixedTabs] else [])
  let blank := (lines.filter (fun l => pyStrip l = "")).length
  { totalLines := lines.length
    blankLines := blank
    blankRat := if lines ≠ [] then (blank : ℚ) / (lines.length : ℚ) else 0
    styleIssues := issues
    styleScore := max 0 (100 - (issues.length : Int) * 10) }

/-- `analyze_code_style` as called with a tool argument: the function
    logs `len(code)` before its `try` block, so a non-string argument
    raises `TypeError` across the boundary; a string argument always
    produces a report. -/
def analyze_code_style : PyValue → Except PyExn StyleRec
  | .pyStr code => .ok (styleCore code)
  | .pyInt _ => .error .typeErr

/-! ### `analyze_documentation_quality` -/

/-- The string of three double quotes. -/
def tripleDq : String := String.mk [dqChar, dqChar, dqChar]

/-- The string of three single quotes. -/
def tripleSq : String := String.mk [sqChar, sqChar, sqChar]

/-- State of the line scan for docstring delimiters and `#` comments. -/
structure DocScanSt where
  inDoc : Bool
  delim : Option String
  docLines : List Nat
  inlineLines : List Nat
  deriving Repr, DecidableEq

/-- One step of the docstring line scan, on `(i, line)` with `i`
    zero-based.  A line containing a triple quote toggles the in-docstring
    state (opening lines are recorded, the closing line is not; a foreign
    triple quote inside a docstring changes nothing); other lines inside a
    docstring are recorded; `#`-lines are inline comments. -/
def docScanStep (st : DocScanSt) (il : Nat × String) : DocScanSt :=
  let stripped := pyStrip il.2
  if strContains stripped tripleDq || strContains stripped tripleSq then
    if !st.inDoc then
      { st with inDoc := true
                delim := some (if strContains stripped tripleDq then tripleDq else tripleSq)
                docLines := st.docLines ++ [il.1 + 1] }
    else if (match st.delim with | some d => strContains stripped d | none => false) then
      { st with inDoc := false, delim := none }
    else st
  else if st.inDoc then { st with docLines := st.docLines ++ [il.1 + 1] }
  else if pyStartsWith stripped "#" then { st with inlineLines := st.inlineLines ++ [il.1 + 1] }
  else st

/-- The whole docstring/comment line scan. -/
def docScan (lines : List String) : DocScanSt :=
  lines.enum.foldl docScanStep ⟨false, none, [], []⟩

/-- Count of `FunctionDef` nodes whose first body statement is a
    non-empty string constant (`ast.get_docstring` is truthy; its cleaned
    text is modelled by the constant's carried string). -/
def countDocumentedFns (t : PyNode) : Nat :=
  visitN (fun n => match n with
    | .pFunctionDef _ _ (.pExprStmt (.pConst true v) :: _) =>
      if v ≠ "" then 1 else 0
    | _ => 0) t

/-- Count of `ClassDef` nodes with a (truthy) docstring. -/
def countDocumentedClasses (t : PyNode) : Nat :=
  visitN (fun n => match n with
    | .pClassDef _ (.pExprStmt (.pConst true v) :: _) =>
      if v ≠ "" then 1 else 0
    | _ => 0) t

/-- The documentation report (a plain report: this analyzer has no input
    pre-scan and converts a parse failure into zero function/class
    counts rather than an error record). -/
structure DocRec where
  totalLines : Nat
  commentLines : Nat
  commentRat : ℚ
  functionCount : Nat
  documentedFunctions : Nat
  classCount : Nat
  documentedClasses : Nat
  docCoverage : ℚ
  docScore : ℚ
  docQualityLevel : String
  deriving Repr, DecidableEq

/-- The body of `analyze_documentation_quality`: the docstring line scan,
    plus tree-based docstring coverage; on a parse failure the `except
    SyntaxError` branch zeroes the tree-based counts and the analysis
    continues. -/
def docCore (parse : String → ParseRes) (code : String) : DocRec :=
  let lines := pySplitLines code
  let st := docScan lines
  let (fnCount, docFns, clsCount, docCls, coverage) :
      Nat × Nat × Nat × Nat × ℚ :=
    match parse code with
    | .parsed t =>
      let f := countFunctionDefs t
      let df := countDocumentedFns t
      let c := countClassDefs t
      let dc := countDocumentedClasses t
      let cov : ℚ := if 0 < f + c then ((df + dc : Nat) : ℚ) * 100 / ((f + c : Nat) : ℚ) else 0
      (f, df, c, dc, cov)
    | .failed _ _ _ _ => (0, 0, 0, 0, 0)
  let totalLines := lines.length
  let commentLines := st.inlineLines.length + st.docLines.length
  let commentRat : ℚ := if 0 < totalLines then (commentLines : ℚ) / (totalLines : ℚ) else 0
  let docScore : ℚ := min 100 (coverage + commentRat * 100)
  { totalLines := totalLines
    commentLines := commentLines
    commentRat := commentRat
    functionCount := fnCount
    documentedFunctions := docFns
    classCount := clsCount
    documentedClasses := docCls
    docCoverage := coverage
    docScore := docScore
    docQualityLevel :=
      if 80 < docScore then "excellent"
      else if 60 < docScore then "good"
      else if 40 < docScore then "fair"
      else "poor" }

/-- `analyze_documentation_quality` as called with a tool argument: it
    logs `len(code)` before its `try` block, so a non-string argument
    raises `TypeError`; every string argument produces a report. -/
def analyze_documentation_quality (parse : String → ParseRes) : PyValue → Except PyExn DocRec
  | .pyStr code => .ok (docCore parse code)
  | .pyInt _ => .error .typeErr

/-! ### `calculate_code_duplication` -/

/-- The sliding 3-line-window count: one block per window position whose
    three lines are identical and non-blank (`for i in
    range(len(lines) - 3 + 1)` with `len(set(block)) == 1 and
    block[0].strip()`). -/
def countBlocks : List String → Nat
  | a :: b :: c :: rest =>
    (if a = b && b = c && pyStrip a ≠ "" then 1 else 0) + countBlocks (b :: c :: rest)
  | _ => 0

/-- The duplication report. -/
structure DupRec where
  totalLines : Nat
  duplicateLines : Nat
  duplicateLineCount : Nat
  duplicationPct : ℚ
  consecutiveDuplicateBlocks : Nat
  duplicationScore : ℚ
  duplicationLevel : String
  mostDuplicated : List String
  deriving Repr, DecidableEq

/-- The body of `calculate_code_duplication`: a line-frequency `Counter`
    filtered to repeated non-blank lines (`firstDedup` reproduces the
    counter's first-occurrence key order), the overlapping 3-line window
    count, and the percentage-based score. -/
def dupCore (code : String) : DupRec :=
  let lines := pySplitLines code
  let dupKeys : List String :=
    (firstDedup lines).filter (fun l => 1 < lines.count l && pyStrip l ≠ "")
  let totalLines := lines.length
  let dupLineCount := (dupKeys.map (fun l => lines.count l - 1)).sum
  let pct : ℚ := if 0 < totalLines then (dupLineCount : ℚ) / (totalLines : ℚ) * 100 else 0
  let score : ℚ := max 0 (100 - pct * 2)
  { totalLines := totalLines
    duplicateLines := dupKeys.length
    duplicateLineCount := dupLineCount
    duplicationPct := pct
    consecutiveDuplicateBlocks := countBlocks lines
    duplicationScore := score
    duplicationLevel :=
      if 90 < score then "excellent"
      else if 75 < score then "good"
      else if 50 < score then "fair"
      else "poor"
    mostDuplicated := dupKeys.take 5 }

/-- `calculate_code_duplication` as called with a tool argument: it logs
    `len(code)` before its `try` block, so a non-string argument raises
    `TypeError`; every string argument produces a report. -/
def calculate_code_duplication : PyValue → Except PyExn DupRec
  | .pyStr code => .ok (dupCore code)
  | .pyInt _ => .error .typeErr

/-! ### A matching engine for the scanner regexes

Every pattern of the security scanners is a plain sequence of three atom
shapes — case-insensitive literals, alternations of literals, and
quantified character classes — with no anchors, groups, lookaround or
nested quantifiers.  `matchEnds` enumerates the remainders of all
successful parses at the start of the input, in Python `re`'s
backtracking priority order (greedy quantifiers try the longest
consumption first, alternatives are tried in listed order), so its head
is the match `re` produces at that position. -/

/-- One regex atom.  Literals and alternations are stored lower-case and
    compared case-insensitively (`re.IGNORECASE`). -/
inductive RxAtom where
  | lit (w : List Char)
  | alts (ws : List (List Char))
  | one (p : Char → Bool)
  | star (p : Char → Bool)
  | plus (p : Char → Bool)
  | rep (n : Nat) (p : Char → Bool)
  | atLeast (n : Nat) (p : Char → Bool)

/-- Case-insensitive prefix test (the pattern side is lower-case). -/
def ciPrefix : List Char → List Char → Bool
  | [], _ => true
  | _ :: _, [] => false
  | c :: w, d :: s => (lowerAscii d = c) && ciPrefix w s

/-- Remainders of all parses of the atom sequence at the head of `s`, in
    backtracking priority order. -/
def matchEnds : List RxAtom → List Char → List (List Char)
  | [], s => [s]
  | .lit w :: r, s =>
    if ciPrefix w s then matchEnds r (s.drop w.length) else []
  | .alts ws :: r, s =>
    ws.flatMap (fun w => if ciPrefix w s then matchEnds r (s.drop w.length) else [])
  | .one p :: r, s =>
    match s with
    | [] => []
    | c :: t => if p c then matchEnds r t else []
  | .star p :: r, s =>
    let m := (s.takeWhile p).length
    (List.range (m + 1)).flatMap (fun i => matchEnds r (s.drop (m - i)))
  | .plus p :: r, s =>
    let m := (s.takeWhile p).length
    (List.range m).flatMap (fun i => matchEnds r (s.drop (m - i)))
  | .rep n p :: r, s =>
    if n ≤ (s.takeWhile p).length then matchEnds r (s.drop n) else []
  | .atLeast n p :: r, s =>
    let m := (s.takeWhile p).length
    if n ≤ m then (List.range (m - n + 1)).flatMap (fun i => matchEnds r (s.drop (m - i)))
    else []

/-- The scan of `re.finditer`: walk left to right, at each position take
    the priority-first parse if any (the leftmost-greedy match), record
    `(start, matched characters)`, and resume after the match (after an
    empty match, one position further).  The fuel argument (`length + 1`
    at the top level) bounds the walk. -/
def rxScanAux (pat : List RxAtom) : List Char → Nat → Nat → List (Nat × List Char)
  | _, _, 0 => []
  | [], pos, _ + 1 =>
    match matchEnds pat [] with
    | _ :: _ => [(pos, [])]
    | [] => []
  | c :: t, pos, fuel + 1 =>
    match matchEnds pat (c :: t) with
    | r :: _ =>
      let len := (c :: t).length - r.length
      if len = 0 then (pos, []) :: rxScanAux pat t (pos + 1) fuel
      else (pos, (c :: t).take len) :: rxScanAux pat r (pos + len) fuel
    | [] => rxScanAux pat t (pos + 1) fuel

/-- `re.finditer(pattern, code, re.IGNORECASE | re.MULTILINE)` as the
    list of `(match start, matched characters)` pairs.  (The scanner
    patterns contain no `^`/`$`, so the MULTILINE flag has no effect.) -/
def rxFinditer (pat : List RxAtom) (s : List Char) : List (Nat × List Char) :=
  rxScanAux pat s 0 (s.length + 1)

/-! ### Findings -/

/-- One reported vulnerability record
    (`{"type", "description", "line", "code", "severity"}`). -/
structure Finding where
  ftype : String
  description : String
  line : Nat
  code : String
  severity : String
  deriving Repr, DecidableEq

/-- `code[:match.start()].count("\n") + 1`. -/
def lineOfPos (code : List Char) (pos : Nat) : Nat :=
  (code.take pos).count nlChar + 1

/-- The snippet truncation: first 100 characters plus `"..."` when the
    match is longer than 100. -/
def truncSnippet (m : List Char) : String :=
  if 100 < m.length then String.mk (m.take 100) ++ "..." else String.mk m

/-- Findings of one `(pattern, description)` pair. -/
def patFindings (ty desc sev : String) (pat : List RxAtom) (code : List Char) : List Finding :=
  (rxFinditer pat code).map (fun pm =>
    { ftype := ty
      description := desc
      line := lineOfPos code pm.1
      code := truncSnippet pm.2
      severity := sev })

/-- Findings of a whole pattern table, in table order. -/
def scanFindings (ty sev : String) (pats : List (List RxAtom × String)) (code : List Char) :
    List Finding :=
  pats.flatMap (fun pd => patFindings ty pd.2 sev pd.1 code)

/-! ### The secrets mask

`re.sub(r'["\'][^"\']+["\']', '"***MASKED***"', matched_text)`: replace
every leftmost quote / non-empty quote-free run / quote triple by the
fixed masked literal. -/

/-- The replacement text `"***MASKED***"` (quotes included). -/
def maskStr : List Char := dqChar :: ("***MASKED***".toList ++ [dqChar])

/-- Fuelled worker for the substitution: at a quote followed by a
    non-empty quote-free run and another quote, emit the mask and resume
    after the closing quote; otherwise advance one character. -/
def maskQF : Nat → List Char → List Char
  | 0, _ => []
  | _ + 1, [] => []
  | f + 1, c :: t =>
    if isQuoteChar c then
      let run := t.takeWhile (fun d => !isQuoteChar d)
      match t.drop run.length with
      | _ :: u =>
        if run.length = 0 then c :: maskQF f t
        else maskStr ++ maskQF f u
      | [] => c :: maskQF f t
    else c :: maskQF f t

/-- The substitution itself, with enough fuel for the whole input. -/
def maskQuoted (l : List Char) : List Char := maskQF l.length l

/-! ### The pattern tables

Hand-compiled from the `re` pattern strings of
`code_security_server.py`, one atom list per pattern, with the source's
`(pattern, description)` pairing and ordering. -/

/-- Case-insensitive literal atom. -/
def rL (s : String) : RxAtom := .lit s.toList

/-- Alternation of case-insensitive literals, tried in listed order. -/
def rAlts (ws : List String) : RxAtom := .alts (ws.map String.toList)

/-- `\s*`. -/
def wsStar : RxAtom := .star isPyWs

/-- `\s+`. -/
def wsPlus : RxAtom := .plus isPyWs

/-- `.*` (no DOTALL: anything but newline). -/
def dotStar : RxAtom := .star (fun c => c ≠ nlChar)

/-- The class `["\']`. -/
def q1 : RxAtom := .one isQuoteChar

/-- `[^)]*`. -/
def notParenStar : RxAtom := .star (fun c => c ≠ ')')

/-- `[^)]+`. -/
def notParenPlus : RxAtom := .plus (fun c => c ≠ ')')

/-- `[^"\']+`. -/
def notQuotePlus : RxAtom := .plus (fun c => !isQuoteChar c)

/-- `[^>]*`. -/
def notGtStar : RxAtom := .star (fun c => c ≠ '>')

/-- `[^}]*`. -/
def notRbStar : RxAtom := .star (fun c => c ≠ rbChar)

/-- `[^+]+`. -/
def notPlusPlus : RxAtom := .plus (fun c => c ≠ '+')

/-- `[^\]]+`. -/
def notRBracketPlus : RxAtom := .plus (fun c => c ≠ ']')

/-- The literal `f"`. -/
def fDq : RxAtom := .lit ['f', dqChar]

/-- The literal `{`. -/
def lbLit : RxAtom := .lit [lbChar]

/-- The literal `}`. -/
def rbLit : RxAtom := .lit [rbChar]

/-- `sql_injection_patterns` (16 patterns). -/
def sqlInjectionPatterns : List (List RxAtom × String) :=
  [ ([fDq, dotStar, rL "select", dotStar, lbLit, dotStar, rbLit],
     "F-string SQL query with variable interpolation"),
    ([fDq, dotStar, rL "insert", dotStar, lbLit, dotStar, rbLit],
     "F-string SQL INSERT with variable interpolation"),
    ([fDq, dotStar, rL "update", dotStar, lbLit, dotStar, rbLit],
     "F-string SQL UPDATE with variable interpolation"),
    ([fDq, dotStar, rL "delete", dotStar, lbLit, dotStar, rbLit],
     "F-string SQL DELETE with variable interpolation"),
    ([fDq, dotStar, rL "drop", dotStar, lbLit, dotStar, rbLit],
     "F-string SQL DROP with variable interpolation"),
    ([fDq, dotStar, rL "create", dotStar, lbLit, dotStar, rbLit],
     "F-string SQL CREATE with variable interpolation"),
    ([q1, wsStar, rL "select", dotStar, wsStar, rL "+", wsStar],
     "SQL query with string concatenation"),
    ([q1, wsStar, rL "insert", dotStar, wsStar, rL "+", wsStar],
     "SQL INSERT with string concatenation"),
    ([q1, wsStar, rL "update", dotStar, wsStar, rL "+", wsStar],
     "SQL UPDATE with string concatenation"),
    ([q1, wsStar, rL "delete", dotStar, wsStar, rL "+", wsStar],
     "SQL DELETE with string concatenation"),
    ([q1, wsStar, rL "select", dotStar, wsStar, rL ".format("],
     "SQL query with .format() method"),
    ([q1, wsStar, rL "insert", dotStar, wsStar, rL ".format("],
     "SQL INSERT with .format() method"),
    ([q1, wsStar, rL "update", dotStar, wsStar, rL ".format("],
     "SQL UPDATE with .format() method"),
    ([q1, wsStar, rL "select", dotStar, wsStar, rL "%", wsStar],
     "SQL query with % formatting"),
    ([q1, wsStar, rL "insert", dotStar, wsStar, rL "%", wsStar],
     "SQL INSERT with % formatting"),
    ([q1, wsStar, rL "update", dotStar, wsStar, rL "%", wsStar],
     "SQL UPDATE with % formatting") ]

/-- `command_injection_patterns` (11 patterns). -/
def commandInjectionPatterns : List (List RxAtom × String) :=
  [ ([rL "os.system", wsStar, rL "(", wsStar, notParenStar, rL "+"],
     "os.system with string concatenation"),
    ([rL "os.system", wsStar, rL "(", wsStar, rL "f", q1],
     "os.system with f-string"),
    ([rL "os.system", wsStar, rL "(", wsStar, notParenStar, rL ".format("],
     "os.system with .format()"),
    ([rL "subprocess.", rAlts ["call", "run", "popen"], wsStar, rL "(",
      notParenStar, rL "shell", wsStar, rL "=", wsStar, rL "true"],
     "subprocess with shell=True"),
    ([rL "subprocess.", rAlts ["call", "run", "popen"], wsStar, rL "(",
      notParenStar, rL "+"],
     "subprocess with string concatenation"),
    ([rL "eval", wsStar, rL "("], "Use of eval() function"),
    ([rL "exec", wsStar, rL "("], "Use of exec() function"),
    ([rL "__import__", wsStar, rL "(", wsStar, notParenStar, rL "+"],
     "__import__ with string concatenation"),
    ([rL "__import__", wsStar, rL "(", wsStar, rL "f", q1],
     "__import__ with f-string"),
    ([rL "globals", wsStar, rL "("], "Use of globals() function"),
    ([rL "locals", wsStar, rL "("], "Use of locals() function") ]

/-- `secret_patterns` (11 patterns). -/
def secretPatterns : List (List RxAtom × String) :=
  [ ([rAlts ["password", "passwd", "pwd"], wsStar, rL "=", wsStar, q1, notQuotePlus, q1],
     "Hardcoded password"),
    ([rAlts ["api_key", "apikey", "key"], wsStar, rL "=", wsStar, q1, notQuotePlus, q1],
     "Hardcoded API key"),
    ([rAlts ["secret", "secret_key"], wsStar, rL "=", wsStar, q1, notQuotePlus, q1],
     "Hardcoded secret"),
    ([rAlts ["token", "access_token"], wsStar, rL "=", wsStar, q1, notQuotePlus, q1],
     "Hardcoded token"),
    ([rAlts ["private_key", "privatekey"], wsStar, rL "=", wsStar, q1, notQuotePlus, q1],
     "Hardcoded private key"),
    ([rAlts ["database_url", "db_url", "connection_string"], wsStar, rL "=", wsStar, q1,
      notQuotePlus, q1],
     "Hardcoded database URL"),
    ([q1, rAlts ["sk_", "pk_"], .atLeast 20 isAlnumAZ09, q1],
     "Potential Stripe API key"),
    ([q1, rAlts ["akia", "a3t", "agpa", "aida", "aroa", "aipa", "anpa", "anva", "asia"],
      .rep 16 isAlnumAZ09, q1],
     "Potential AWS access key"),
    ([q1, .atLeast 32 isAlnumAZ09, q1], "Potential hash or token"),
    ([q1, rAlts ["mysql", "postgresql", "mongodb"], rL "://", notQuotePlus, q1],
     "Hardcoded database connection string"),
    ([rAlts ["email_password", "smtp_password"], wsStar, rL "=", wsStar, q1, notQuotePlus, q1],
     "Hardcoded email password") ]

/-- `path_traversal_patterns` (8 patterns). -/
def pathTraversalPatterns : List (List RxAtom × String) :=
  [ ([rL "open", wsStar, rL "(", wsStar, notParenStar, rL "+"],
     "open() with string concatenation"),
    ([rL "open", wsStar, rL "(", wsStar, rL "f", q1], "open() with f-string"),
    ([rL "open", wsStar, rL "(", wsStar, notParenStar, rL ".format("],
     "open() with .format()"),
    ([rL "os.path.join", wsStar, rL "(", wsStar, notParenStar, rL "+"],
     "os.path.join with string concatenation"),
    ([rL "os.path.", rAlts ["exists", "isfile", "isdir"], wsStar, rL "(", wsStar,
      notParenStar, rL "+"],
     "os.path check with string concatenation"),
    ([rL "with", wsPlus, rL "open", wsStar, rL "(", wsStar, notParenStar, rL "+",
      wsStar, notParenStar, rL ")"],
     "File operation with concatenated path"),
    ([q1, rL "../"], "Relative path with parent directory"),
    ([q1, .lit ['.', '.', bsChar]], "Relative path with parent directory (Windows)") ]

/-- `deserialization_patterns` (7 patterns). -/
def deserializationPatterns : List (List RxAtom × String) :=
  [ ([rL "pickle.loads", wsStar, rL "("], "Use of pickle.loads()"),
    ([rL "pickle.load", wsStar, rL "("], "Use of pickle.load()"),
    ([rL "yaml.load", wsStar, rL "("], "Use of yaml.load() without safe loader"),
    ([rL "yaml.load", wsStar, rL "(", notParenStar, rL "loader", wsStar, rL "=", wsStar,
      rL "yaml.loader"],
     "Use of yaml.load() with unsafe Loader"),
    ([rL "json.loads", wsStar, rL "(", notParenStar, rL "object_hook"],
     "json.loads with custom object_hook"),
    ([rL "marshal.loads", wsStar, rL "("], "Use of marshal.loads()"),
    ([rL "marshal.load", wsStar, rL "("], "Use of marshal.load()") ]

/-- `xss_patterns` (7 patterns). -/
def xssPatterns : List (List RxAtom × String) :=
  [ ([rL "return", wsPlus, rL "render_template", wsStar, rL "(", wsStar, notParenStar, rL "+"],
     "Template rendering with string concatenation"),
    ([rL "return", wsPlus, rL "render_template_string", wsStar, rL "(", wsStar, notParenStar,
      rL "+"],
     "Template string rendering with concatenation"),
    ([rL "return", wsPlus, rL "render", wsStar, rL "(", wsStar, rL "request", wsStar, rL ",",
      wsStar, notParenStar, rL "+"],
     "Django render with string concatenation"),
    ([rL "f", q1, rL "<", notGtStar, rL ">", lbLit, notRbStar, rbLit, notGtStar, rL ">", q1],
     "F-string HTML with variable interpolation"),
    ([q1, rL "<", notGtStar, rL ">", wsStar, rL "+", wsStar, notPlusPlus, q1],
     "HTML with string concatenation"),
    ([rL "f", q1, rL "<script", notGtStar, rL ">", lbLit, notRbStar, rbLit, notGtStar, rL ">",
      q1],
     "F-string script tag with variable"),
    ([q1, rL "<script", notGtStar, rL ">", wsStar, rL "+", wsStar, notPlusPlus, q1],
     "Script tag with string concatenation") ]

/-- `validation_patterns` (7 patterns). -/
def validationPatterns : List (List RxAtom × String) :=
  [ ([rL "input", wsStar, rL "(", wsStar, rL ")"], "Use of input() without validation"),
    ([rL "request.", rAlts ["args", "form", "json"], wsStar, rL "[", notRBracketPlus, rL "]"],
     "Direct access to request data"),
    ([rL "request.", rAlts ["args", "form", "json"], rL ".get", wsStar, rL "(", notParenStar,
      rL ")"],
     "Request data access without validation"),
    ([rL "if", wsPlus, rL "len", wsStar, rL "(", wsStar, notParenPlus, wsStar, rL ")", wsStar,
      rL ">", wsStar, rL "0:"],
     "Length-only validation"),
    ([rL "if", wsPlus, notParenPlus, wsStar, rL "is", wsPlus, rL "not", wsPlus, rL "none:"],
     "None-only validation"),
    ([rL "open", wsStar, rL "(", wsStar, notParenStar, rL ")"],
     "File operation without input validation"),
    ([rL "subprocess.", .plus isLetterAZ, wsStar, rL "(", wsStar, notParenStar, rL ")"],
     "Subprocess without input validation") ]

/-! ### The seven sub-scanners and the composite scanner -/

/-- A sub-scanner report
    (`{"vulnerabilities", "risk_level", "vulnerability_count",
    "recommendations"}`). -/
structure ScanRec where
  vulnerabilities : List Finding
  riskLevel : String
  vulnerabilityCount : Nat
  recommendations : List String
  deriving Repr, DecidableEq

/-- `risk_level`: low when nothing was found, else high above the
    scanner's threshold, else medium. -/
def scanRisk (n thresh : Nat) : String :=
  if n = 0 then "low" else if thresh < n then "high" else "medium"

/-- The body of `analyze_sql_injection` on a string. -/
def sqlCore (code : String) : ScanRec :=
  let vulns := scanFindings "SQL Injection" "high" sqlInjectionPatterns code.toList
  { vulnerabilities := vulns
    riskLevel := scanRisk vulns.length 3
    vulnerabilityCount := vulns.length
    recommendations :=
      [ "Use parameterized queries with placeholders",
        "Use ORM libraries like SQLAlchemy",
        "Validate and sanitize all user inputs",
        "Use database connection libraries with built-in protection" ] }

/-- `analyze_sql_injection` as called with a tool argument: the function
    logs `len(code)` before scanning and has no exception handler, so a
    non-string argument raises `TypeError`. -/
def analyze_sql_injection : PyValue → Except PyExn ScanRec
  | .pyStr code => .ok (sqlCore code)
  | .pyInt _ => .error .typeErr

/-- The body of `analyze_command_injection` on a string. -/
def commandCore (code : String) : ScanRec :=
  let vulns := scanFindings "Command Injection" "high" commandInjectionPatterns code.toList
  { vulnerabilities := vulns
    riskLevel := scanRisk vulns.length 2
    vulnerabilityCount := vulns.length
    recommendations :=
      [ "Avoid using eval(), exec(), globals(), locals()",
        "Use subprocess with shell=False and proper argument lists",
        "Validate and sanitize all command inputs",
        "Use specific libraries instead of shell commands",
        "Consider using shlex.quote() for shell arguments" ] }

/-- `analyze_command_injection` with a tool argument. -/
def analyze_command_injection : PyValue → Except PyExn ScanRec
  | .pyStr code => .ok (commandCore code)
  | .pyInt _ => .error .typeErr

/-- Findings of the secrets table: like `scanFindings`, but the snippet
    is the masked match (no 100-character truncation in this scanner). -/
def secretFindings (code : List Char) : List Finding :=
  secretPatterns.flatMap (fun pd =>
    (rxFinditer pd.1 code).map (fun pm =>
      { ftype := "Hardcoded Secret"
        description := pd.2
        line := lineOfPos code pm.1
        code := String.mk (maskQuoted pm.2)
        severity := "high" }))

/-- The body of `analyze_hardcoded_secrets` on a string. -/
def secretsCore (code : String) : ScanRec :=
  let vulns := secretFindings code.toList
  { vulnerabilities := vulns
    riskLevel := scanRisk vulns.length 2
    vulnerabilityCount := vulns.length
    recommendations :=
      [ "Use environment variables for sensitive data",
        "Use configuration management tools",
        "Use secret management services",
        "Never commit secrets to version control",
        "Use .env files (not committed) for local development" ] }

/-- `analyze_hardcoded_secrets` with a tool argument. -/
def analyze_hardcoded_secrets : PyValue → Except PyExn ScanRec
  | .pyStr code => .ok (secretsCore code)
  | .pyInt _ => .error .typeErr

/-- The body of `analyze_path_traversal` on a string. -/
def pathCore (code : String) : ScanRec :=
  let vulns := scanFindings "Path Traversal" "medium" pathTraversalPatterns code.toList
  { vulnerabilities := vulns
    riskLevel := scanRisk vulns.length 3
    vulnerabilityCount := vulns.length
    recommendations :=
      [ "Use os.path.abspath() and os.path.realpath() to normalize paths",
        "Validate file paths against allowed directories",
        "Use pathlib.Path for safer path operations",
        "Implement proper input validation and sanitization",
        "Use chroot or jail environments when possible" ] }

/-- `analyze_path_traversal` with a tool argument (no logging, but the
    `re` calls themselves reject a non-string). -/
def analyze_path_traversal : PyValue → Except PyExn ScanRec
  | .pyStr code => .ok (pathCore code)
  | .pyInt _ => .error .typeErr

/-- The body of `analyze_unsafe_deserialization` on a string. -/
def deserializationCore (code : String) : ScanRec :=
  let vulns := scanFindings "Unsafe Deserialization" "high" deserializationPatterns code.toList
  { vulnerabilities := vulns
    riskLevel := scanRisk vulns.length 1
    vulnerabilityCount := vulns.length
    recommendations :=
      [ "Avoid using pickle for untrusted data",
        "Use yaml.safe_load() instead of yaml.load()",
        "Validate all deserialized data",
        "Use custom serialization formats for sensitive data",
        "Consider using libraries like pydantic for data validation" ] }

/-- `analyze_unsafe_deserialization` with a tool argument. -/
def analyze_unsafe_deserialization : PyValue → Except PyExn ScanRec
  | .pyStr code => .ok (deserializationCore code)
  | .pyInt _ => .error .typeErr

/-- The body of `analyze_xss_vulnerabilities` on a string. -/
def xssCore (code : String) : ScanRec :=
  let vulns := scanFindings "Cross-Site Scripting (XSS)" "high" xssPatterns code.toList
  { vulnerabilities := vulns
    riskLevel := scanRisk vulns.length 2
    vulnerabilityCount := vulns.length
    recommendations :=
      [ "Use template engines with automatic escaping",
        "Validate and sanitize all user inputs",
        "Use Content Security Policy (CSP) headers",
        "Escape output in templates",
        "Use libraries like bleach for HTML sanitization" ] }

/-- `analyze_xss_vulnerabilities` with a tool argument. -/
def analyze_xss_vulnerabilities : PyValue → Except PyExn ScanRec
  | .pyStr code => .ok (xssCore code)
  | .pyInt _ => .error .typeErr

/-- The body of `analyze_input_validation` on a string. -/
def validationCore (code : String) : ScanRec :=
  let vulns := scanFindings "Input Validation" "medium" validationPatterns code.toList
  { vulnerabilities := vulns
    riskLevel := scanRisk vulns.length 5
    vulnerabilityCount := vulns.length
    recommendations :=
      [ "Implement comprehensive input validation",
        "Use type hints and validation libraries like pydantic",
        "Validate data types, ranges, and formats",
        "Use allowlists instead of blocklists",
        "Implement proper error handling for invalid inputs" ] }

/-- `analyze_input_validation` with a tool argument. -/
def analyze_input_validation : PyValue → Except PyExn ScanRec
  | .pyStr code => .ok (validationCore code)
  | .pyInt _ => .error .typeErr

/-- The composite report. -/
structure CompositeRec where
  overallRiskLevel : String
  securityScore : Int
  totalVulnerabilities : Nat
  highSeverityCount : Nat
  mediumSeverityCount : Nat
  vulnerabilityTypes : List (String × List Finding)
  allVulnerabilities : List Finding
  summarySqlInjection : Nat
  summaryCommandInjection : Nat
  summaryHardcodedSecrets : Nat
  summaryPathTraversal : Nat
  summaryUnsafeDeserialization : Nat
  summaryXss : Nat
  summaryInputValidation : Nat
  recommendations : List String
  deriving Repr, DecidableEq

/-- Grouping by the `type` field, keys in first-occurrence order (the
    Python dict built by the grouping loop). -/
def groupByType (fs : List Finding) : List (String × List Finding) :=
  (firstDedup (fs.map (fun f => f.ftype))).map
    (fun ty => (ty, fs.filter (fun f => f.ftype = ty)))

/-- The body of `comprehensive_security_analysis` on a string: run the
    seven sub-scanners, concatenate their findings in the fixed order,
    count severities, and derive risk level and score.  (The source
    round-trips each sub-report through `json.dumps`/`json.loads`, which
    is the identity on these records.) -/
def compositeCore (code : String) : CompositeRec :=
  let sqlR := sqlCore code
  let cmdR := commandCore code
  let secR := secretsCore code
  let pathR := pathCore code
  let desR := deserializationCore code
  let xssR := xssCore code
  let valR := validationCore code
  let allV := sqlR.vulnerabilities ++ cmdR.vulnerabilities ++ secR.vulnerabilities ++
    pathR.vulnerabilities ++ desR.vulnerabilities ++ xssR.vulnerabilities ++
    valR.vulnerabilities
  let hi := (allV.filter (fun f => f.severity = "high")).length
  let med := (allV.filter (fun f => f.severity = "medium")).length
  { overallRiskLevel := if 0 < hi then "high" else if 3 < med then "medium" else "low"
    securityScore := max 0 (100 - 20 * (hi : Int) - 10 * (med : Int))
    totalVulnerabilities := allV.length
    highSeverityCount := hi
    mediumSeverityCount := med
    vulnerabilityTypes := groupByType allV
    allVulnerabilities := allV
    summarySqlInjection := sqlR.vulnerabilities.length
    summaryCommandInjection := cmdR.vulnerabilities.length
    summaryHardcodedSecrets := secR.vulnerabilities.length
    summaryPathTraversal := pathR.vulnerabilities.length
    summaryUnsafeDeserialization := desR.vulnerabilities.length
    summaryXss := xssR.vulnerabilities.length
    summaryInputValidation := valR.vulnerabilities.length
    recommendations :=
      [ "Address high-severity vulnerabilities first",
        "Implement secure coding practices",
        "Use security-focused libraries and frameworks",
        "Regular security audits and code reviews",
        "Follow OWASP guidelines",
        "Use automated security testing tools" ] }

/-- `comprehensive_security_analysis` with a tool argument: its first
    step calls `analyze_sql_injection`, which raises `TypeError` on a
    non-string. -/
def comprehensive_security_analysis : PyValue → Except PyExn CompositeRec
  | .pyStr code => .ok (compositeCore code)
  | .pyInt _ => .error .typeErr

/-! ### Theorems -/

/-- C9: for every string input the style analyzer's `style_score` is one
    of 70, 80, 90, 100 — there are only three possible issue categories
    (long lines, trailing whitespace, mixed tabs and spaces), each
    subtracting exactly 10 from the base 100, so the `max(0, _)` floor is
    never reached. -/
theorem c9_style_score_in_four_values (code : String) :
    (styleCore code).styleScore = 70 ∨ (styleCore code).styleScore = 80 ∨
    (styleCore code).styleScore = 90 ∨ (styleCore code).styleScore = 100 := by
  unfold styleCore
  dsimp only
  split_ifs <;> simp

/-- C10: each occurrence of an anti-pattern identifier (`l, O, I, a, b,
    x, y, z`) among the collected names yields both a too-short-name
    issue (every anti-pattern name has length 1 < 2) and a
    single-letter-variable issue — exactly two `naming_issues` entries,
    hence 10 points of (pre-floor) `naming_score` penalty — and the
    occurrence is never counted among `good_names`. -/
theorem c10_anti_pattern_two_issues (l1 l2 : List String) (nm : String)
    (h : nm ∈ antiPatterns) :
    (namingIssuesOf (l1 ++ nm :: l2)).length = (namingIssuesOf (l1 ++ l2)).length + 2 ∧
    goodNamesOf (l1 ++ nm :: l2) = goodNamesOf (l1 ++ l2) ∧
    NIssue.tooShort nm ∈ namingIssuesOf (l1 ++ nm :: l2) ∧
    NIssue.singleLetter nm ∈ namingIssuesOf (l1 ++ nm :: l2) ∧
    namingScoreOf (l1 ++ nm :: l2) =
      max 0 (100 - 5 * (((namingIssuesOf (l1 ++ l2)).length : Int) + 2)) := by
  have hlen : nm.length = 1 := by
    fin_cases h <;> rfl
  have h1 : nameIssue1 nm = some (.tooShort nm) := by
    unfold nameIssue1
    rw [hlen]
    norm_num
  have h2 : nameIssue2 nm = some (.singleLetter nm) := by
    simp [nameIssue2, h, hlen]
  have hcount : (namingIssuesOf (l1 ++ nm :: l2)).length =
      (namingIssuesOf (l1 ++ l2)).length + 2 := by
    simp only [namingIssuesOf, List.filterMap_append, List.filterMap_cons, h1, h2,
      List.length_append, List.length_cons]
    omega
  refine ⟨hcount, ?_, ?_, ?_, ?_⟩
  · simp only [goodNamesOf, List.filter_append, List.filter_cons]
    simp [h1]
  · simp only [namingIssuesOf, List.mem_append, List.mem_filterMap]
    exact Or.inl ⟨nm, by simp, h1⟩
  · simp only [namingIssuesOf, List.mem_append, List.mem_filterMap]
    exact Or.inr ⟨nm, by simp, h2⟩
  · unfold namingScoreOf
    rw [hcount]
    push_cast
    ring_nf

/-- Witness for C10 at the concrete occurrence `"x"` with no other
    collected names. -/
theorem c10_witness :
    (namingIssuesOf ([] ++ "x" :: [])).length = (namingIssuesOf ([] ++ [])).length + 2 ∧
    goodNamesOf ([] ++ "x" :: []) = goodNamesOf ([] ++ []) ∧
    NIssue.tooShort "x" ∈ namingIssuesOf ([] ++ "x" :: []) ∧
    NIssue.singleLetter "x" ∈ namingIssuesOf ([] ++ "x" :: []) ∧
    namingScoreOf ([] ++ "x" :: []) =
      max 0 (100 - 5 * (((namingIssuesOf ([] ++ [])).length : Int) + 2)) :=
  c10_anti_pattern_two_issues [] [] "x" (by decide)

/-- A window never fires when its first two lines differ. -/
theorem countBlocks_cons_ne (x y : String) (l : List String) (h : x ≠ y) :
    countBlocks (x :: y :: l) = countBlocks (y :: l) := by
  cases l with
  | nil => rfl
  | cons c t => simp [countBlocks, h]

/-- A window of three equal non-blank lines fires. -/
theorem countBlocks_cons_eq (s : String) (l : List String) (hs : pyStrip s ≠ "") :
    countBlocks (s :: s :: s :: l) = 1 + countBlocks (s :: s :: l) := by
  simp [countBlocks, hs]

/-- Blocks of a pure run of `n` equal non-blank lines: `n - 2`. -/
theorem countBlocks_replicate (s : String) (hs : pyStrip s ≠ "") :
    ∀ n, countBlocks (List.replicate n s) = n - 2 := by
  intro n
  induction n with
  | zero => rfl
  | succ m ih =>
    rcases m with _ | m
    · rfl
    rcases m with _ | m
    · rfl
    have hrep3 : List.replicate (m + 1 + 1 + 1) s = s :: s :: s :: List.replicate m s := by
      simp [List.replicate_succ]
    have hrep2 : List.replicate (m + 1 + 1) s = s :: s :: List.replicate m s := by
      simp [List.replicate_succ]
    rw [hrep3, countBlocks_cons_eq s _ hs, ← hrep2, ih]
    omega

/-- Blocks of a run of `n` equal non-blank lines followed by a different
    line: `n - 2` plus the blocks of the remainder. -/
theorem countBlocks_run_append (s y : String) (rest : List String)
    (hs : pyStrip s ≠ "") (hy : y ≠ s) :
    ∀ n, countBlocks (List.replicate n s ++ y :: rest) = (n - 2) + countBlocks (y :: rest) := by
  have hsy : s ≠ y := fun hc => hy hc.symm
  intro n
  induction n with
  | zero => simp
  | succ m ih =>
    rcases m with _ | m
    · simpa using countBlocks_cons_ne s y rest hsy
    rcases m with _ | m
    · have h0 : countBlocks (s :: s :: y :: rest) = countBlocks (s :: y :: rest) := by
        simp [countBlocks, hsy]
      have h1 : countBlocks (s :: y :: rest) = countBlocks (y :: rest) :=
        countBlocks_cons_ne s y rest hsy
      simp only [List.replicate_succ, List.replicate_zero, List.cons_append, List.nil_append]
      rw [h0, h1]
      omega
    have hrep3 : List.replicate (m + 1 + 1 + 1) s ++ y :: rest =
        s :: s :: s :: (List.replicate m s ++ y :: rest) := by
      simp [List.replicate_succ]
    have hrep2 : List.replicate (m + 1 + 1) s ++ y :: rest =
        s :: s :: (List.replicate m s ++ y :: rest) := by
      simp [List.replicate_succ]
    rw [hrep3, countBlocks_cons_eq s _ hs, ← hrep2, ih]
    omega

/-- C7: a maximal run of exactly `n ≥ 3` identical non-blank lines,
    bounded by differing lines (or by nothing at all), contributes every
    overlapping 3-line window inside it, i.e. `n - 2` blocks, to
    `consecutive_duplicate_blocks` — not one. -/
theorem c7_window_count (code : String) (x y s : String) (n : Nat)
    (hn : 3 ≤ n) (hs : pyStrip s ≠ "") (hx : x ≠ s) (hy : y ≠ s)
    (hsplit : pySplitLines code = x :: (List.replicate n s ++ [y])) :
    (dupCore code).consecutiveDuplicateBlocks = n - 2 ∧
    countBlocks (List.replicate n s) = n - 2 := by
  constructor
  · have hfield : (dupCore code).consecutiveDuplicateBlocks = countBlocks (pySplitLines code) := rfl
    rw [hfield, hsplit]
    have hrep : List.replicate n s ++ [y] = s :: (List.replicate (n - 1) s ++ [y]) := by
      cases n with
      | zero => omega
      | succ m => simp [List.replicate_succ]
    have hhead : countBlocks (x :: (List.replicate n s ++ [y])) =
        countBlocks (List.replicate n s ++ [y]) := by
      rw [hrep, countBlocks_cons_ne x s _ hx, ← hrep]
    rw [hhead, countBlocks_run_append s y [] hs hy n]
    simp [countBlocks]
  · exact countBlocks_replicate s hs n

/-- Witness for C7: the concrete input with lines
    `["b", "a", "a", "a", "a", "c"]` — a maximal run of 4 gives 2
    blocks. -/
theorem c7_witness :
    (dupCore "b\na\na\na\na\nc").consecutiveDuplicateBlocks = 4 - 2 ∧
    countBlocks (List.replicate 4 "a") = 4 - 2 :=
  c7_window_count "b\na\na\na\na\nc" "b" "c" "a" 4 (by decide) (by decide) (by decide)
    (by decide) (by decide)

/-- The per-node complexity contribution as the specification words it:
    `+1` for each conditional/loop node (if/while/for, including async
    variants), each exception-handler clause, each with/async-with
    block, each assert and each raise; `(operand_count - 1)` per
    boolean-operator expression; nothing for return statements.  Written
    from the specification text, to be compared with the source-derived
    `cxContrib`. -/
def specCxContrib : PyNode → Nat
  | .pIf _ _ _ => 1
  | .pWhile _ _ _ => 1
  | .pFor _ _ _ _ => 1
  | .pAsyncFor _ _ _ _ => 1
  | .pExceptHandler _ _ => 1
  | .pWith _ _ => 1
  | .pAsyncWith _ _ => 1
  | .pAssert _ => 1
  | .pRaise _ => 1
  | .pBoolOp vs => vs.length - 1
  | .pReturn _ => 0
  | _ => 0

/-- Cyclomatic complexity as the specification words it: base 1 plus the
    walk contributions. -/
def specCyclomatic (t : PyNode) : Nat := 1 + visitN specCxContrib t

/-- The complexity level as the specification words it: `<= 5` low,
    6 to 10 medium, `>= 11` high. -/
def specCxLevel (c : Nat) : String :=
  if c ≤ 5 then "low" else if 6 ≤ c ∧ c ≤ 10 then "medium" else "high"

/-- C5: the complexity analyzer computes cyclomatic complexity exactly as
    specified (base 1; `+1` per if/while/for including async variants,
    handler clause, with/async-with, assert, raise; `operands - 1` per
    boolean operator; nothing for returns), and buckets the level with
    the exact thresholds 5 → low, 6 → medium, 11 → high. -/
theorem c5_complexity_algorithm_and_levels :
    (∀ t, cyclomaticOf t = specCyclomatic t) ∧
    (∀ c, cxLevel c = specCxLevel c) ∧
    cxLevel 5 = "low" ∧ cxLevel 6 = "medium" ∧ cxLevel 11 = "high" ∧
    (∀ parse code t r, parse code = .parsed t →
      calculate_code_complexity parse (.pyStr code) = .ok r →
      r.cyclomaticComplexity = specCyclomatic t ∧
      r.complexityLevel = specCxLevel (specCyclomatic t)) := by
  have hfun : cxContrib = specCxContrib := by
    funext n
    cases n <;> rfl
  have hcy : ∀ t, cyclomaticOf t = specCyclomatic t := by
    intro t
    unfold cyclomaticOf specCyclomatic
    rw [hfun]
  have hlv : ∀ c, cxLevel c = specCxLevel c := by
    intro c
    unfold cxLevel specCxLevel
    split_ifs <;> first | rfl | omega
  refine ⟨hcy, hlv, rfl, rfl, rfl, ?_⟩
  intro parse code t r hp hr
  unfold calculate_code_complexity at hr
  by_cases htrim : pyStrip code = ""
  · simp [htrim] at hr
  · simp only [htrim, if_neg, ite_false, hp] at hr
    cases hr
    exact ⟨hcy t, by rw [← hlv, ← hcy t]⟩

/-- Witness for C5: a one-if module under a stub parse oracle. -/
theorem c5_witness :
    ({ cyclomaticComplexity := 2, functionCount := 0, classCount := 0, importCount := 0,
       assignmentCount := 0, callCount := 0, complexityLevel := "low",
       warnings := none } : ComplexityRec).cyclomaticComplexity =
        specCyclomatic (.pModule [.pIf (.pName "y") [.pPass] []]) ∧
    ({ cyclomaticComplexity := 2, functionCount := 0, classCount := 0, importCount := 0,
       assignmentCount := 0, callCount := 0, complexityLevel := "low",
       warnings := none } : ComplexityRec).complexityLevel =
        specCxLevel (specCyclomatic (.pModule [.pIf (.pName "y") [.pPass] []])) :=
  c5_complexity_algorithm_and_levels.2.2.2.2.2
    (fun _ => .parsed (.pModule [.pIf (.pName "y") [.pPass] []])) "w"
    (.pModule [.pIf (.pName "y") [.pPass] []]) _ rfl (by decide)

/-- Every finding a pattern table emits carries that table's fixed
    severity. -/
theorem scanFindings_severity (ty sev : String) (pats : List (List RxAtom × String))
    (code : List Char) :
    ∀ f ∈ scanFindings ty sev pats code, f.severity = sev := by
  intro f hf
  simp only [scanFindings, patFindings, List.mem_flatMap, List.mem_map] at hf
  obtain ⟨pd, _, pm, _, rfl⟩ := hf
  rfl

/-- Every finding of the secrets scanner has severity `"high"`. -/
theorem secretFindings_severity (code : List Char) :
    ∀ f ∈ secretFindings code, f.severity = "high" := by
  intro f hf
  simp only [secretFindings, List.mem_flatMap, List.mem_map] at hf
  obtain ⟨pd, _, pm, _, rfl⟩ := hf
  rfl

/-- A list of findings whose severities are all high or medium has as
    many elements as its high part plus its medium part. -/
theorem length_filter_high_medium (l : List Finding)
    (h : ∀ f ∈ l, f.severity = "high" ∨ f.severity = "medium") :
    l.length = (l.filter (fun f => f.severity = "high")).length +
      (l.filter (fun f => f.severity = "medium")).length := by
  induction l with
  | nil => rfl
  | cons a t ih =>
    have ht := fun f hf => h f (List.mem_cons_of_mem a hf)
    rcases h a (List.mem_cons_self a t) with ha | ha <;>
      simp [List.filter_cons, ha, ih ht] <;> omega

/-- C8: in the composite security report, `total_vulnerabilities` equals
    `high_severity_count + medium_severity_count` and equals the sum of
    the seven per-category summary counts, because every finding of
    every sub-scanner carries severity high or medium, never low. -/
theorem c8_composite_count_invariants (code : String) :
    (compositeCore code).totalVulnerabilities =
      (compositeCore code).highSeverityCount + (compositeCore code).mediumSeverityCount ∧
    (compositeCore code).totalVulnerabilities =
      (compositeCore code).summarySqlInjection + (compositeCore code).summaryCommandInjection +
      (compositeCore code).summaryHardcodedSecrets + (compositeCore code).summaryPathTraversal +
      (compositeCore code).summaryUnsafeDeserialization + (compositeCore code).summaryXss +
      (compositeCore code).summaryInputValidation ∧
    (∀ f ∈ (compositeCore code).allVulnerabilities,
      f.severity = "high" ∨ f.severity = "medium") := by
  have hall : ∀ f ∈ (compositeCore code).allVulnerabilities,
      f.severity = "high" ∨ f.severity = "medium" := by
    have hA : (compositeCore code).allVulnerabilities =
        (sqlCore code).vulnerabilities ++ (commandCore code).vulnerabilities ++
        (secretsCore code).vulnerabilities ++ (pathCore code).vulnerabilities ++
        (deserializationCore code).vulnerabilities ++ (xssCore code).vulnerabilities ++
        (validationCore code).vulnerabilities := rfl
    rw [hA]
    intro f hf
    simp only [List.mem_append] at hf
    rcases hf with ((((((h1 | h2) | h3) | h4) | h5) | h6) | h7)
    · exact Or.inl (scanFindings_severity _ _ _ _ f h1)
    · exact Or.inl (scanFindings_severity _ _ _ _ f h2)
    · exact Or.inl (secretFindings_severity _ f h3)
    · exact Or.inr (scanFindings_severity _ _ _ _ f h4)
    · exact Or.inl (scanFindings_severity _ _ _ _ f h5)
    · exact Or.inl (scanFindings_severity _ _ _ _ f h6)
    · exact Or.inr (scanFindings_severity _ _ _ _ f h7)
  refine ⟨?_, ?_, hall⟩
  · have hT : (compositeCore code).totalVulnerabilities =
        ((compositeCore code).allVulnerabilities).length := rfl
    have hH : (compositeCore code).highSeverityCount =
        (((compositeCore code).allVulnerabilities).filter
          (fun f => f.severity = "high")).length := rfl
    have hM : (compositeCore code).mediumSeverityCount =
        (((compositeCore code).allVulnerabilities).filter
          (fun f => f.severity = "medium")).length := rfl
    rw [hT, hH, hM]
    exact length_filter_high_medium _ hall
  · have hT : (compositeCore code).totalVulnerabilities =
        ((sqlCore code).vulnerabilities ++ (commandCore code).vulnerabilities ++
        (secretsCore code).vulnerabilities ++ (pathCore code).vulnerabilities ++
        (deserializationCore code).vulnerabilities ++ (xssCore code).vulnerabilities ++
        (validationCore code).vulnerabilities).length := rfl
    have hS1 : (compositeCore code).summarySqlInjection =
        (sqlCore code).vulnerabilities.length := rfl
    have hS2 : (compositeCore code).summaryCommandInjection =
        (commandCore code).vulnerabilities.length := rfl
    have hS3 : (compositeCore code).summaryHardcodedSecrets =
        (secretsCore code).vulnerabilities.length := rfl
    have hS4 : (compositeCore code).summaryPathTraversal =
        (pathCore code).vulnerabilities.length := rfl
    have hS5 : (compositeCore code).summaryUnsafeDeserialization =
        (deserializationCore code).vulnerabilities.length := rfl
    have hS6 : (compositeCore code).summaryXss =
        (xssCore code).vulnerabilities.length := rfl
    have hS7 : (compositeCore code).summaryInputValidation =
        (validationCore code).vulnerabilities.length := rfl
    rw [hT, hS1, hS2, hS3, hS4, hS5, hS6, hS7]
    simp only [List.length_append]

/-- Witness for C8 at the concrete input `eval(x)`, whose single finding
    is the eval command-injection record. -/
theorem c8_witness :
    (compositeCore "eval(x)").totalVulnerabilities =
      (compositeCore "eval(x)").highSeverityCount +
        (compositeCore "eval(x)").mediumSeverityCount ∧
    ((Finding.mk "Command Injection" "Use of eval() function" 1 "eval(" "high").severity =
        "high" ∨
      (Finding.mk "Command Injection" "Use of eval() function" 1 "eval(" "high").severity =
        "medium") :=
  ⟨(c8_composite_count_invariants "eval(x)").1,
   (c8_composite_count_invariants "eval(x)").2.2 _ (by decide)⟩

/-- A parse oracle agreeing with CPython `ast.parse` on the two concrete
    inputs used below: the empty string parses to an empty module, and
    everything else (in particular `"def f(:"`) fails with a syntax
    error at line 1. -/
def parseProbe : String → ParseRes := fun s =>
  if s = "" then .parsed (.pModule [])
  else .failed "invalid syntax" (some 1) (some 8) (some "def f(:")

/-- C1 counterexample: on the empty string the Documentation analyzer
    does not return an Empty-input error record — it has no input
    pre-scan, so it returns an ordinary report (1 line, no functions),
    refuting the claim that every one of the six tree-based analyzers
    returns an `{"error": "Empty input"}` record on `""`. -/
theorem c1_counterexample :
    analyze_documentation_quality parseProbe (.pyStr "") = .ok (docCore parseProbe "") ∧
    (docCore parseProbe "").totalLines = 1 ∧
    (docCore parseProbe "").commentLines = 0 ∧
    (docCore parseProbe "").functionCount = 0 ∧
    (docCore parseProbe "").classCount = 0 :=
  ⟨rfl, by decide, by decide, by decide, by decide⟩

/-- C1 as amended: the five pre-scanning tree-based analyzers
    (complexity, coverage, naming, maintainability, error handling)
    return an Invalid-input-type record for non-string input and an
    Empty-input record for empty or whitespace-only input, never
    raising; the Documentation analyzer has no pre-scan and returns an
    ordinary report on every string, in particular on blank input. -/
theorem c1_amended_prescan_analyzers (parse : String → ParseRes) (n : Int) (code : String)
    (hblank : pyStrip code = "") :
    calculate_code_complexity parse (.pyInt n) = .err .badType ∧
    measure_code_coverage_metrics parse (.pyInt n) = .err .badType ∧
    analyze_naming_conventions parse (.pyInt n) = .err .badType ∧
    calculate_maintainability_index parse (.pyInt n) = .err .badType ∧
    analyze_error_handling parse (.pyInt n) = .err .badType ∧
    calculate_code_complexity parse (.pyStr code) = .err .emptyIn ∧
    measure_code_coverage_metrics parse (.pyStr code) = .err .emptyIn ∧
    analyze_naming_conventions parse (.pyStr code) = .err .emptyIn ∧
    calculate_maintainability_index parse (.pyStr code) = .err .emptyIn ∧
    analyze_error_handling parse (.pyStr code) = .err .emptyIn ∧
    analyze_documentation_quality parse (.pyStr code) = .ok (docCore parse code) := by
  refine ⟨rfl, rfl, rfl, rfl, rfl, ?_, ?_, ?_, ?_, ?_, rfl⟩ <;>
    simp [calculate_code_complexity, measure_code_coverage_metrics,
      analyze_naming_conventions, calculate_maintainability_index,
      analyze_error_handling, hblank]

/-- Witness for C1-as-amended at a whitespace-only input. -/
theorem c1_witness :
    calculate_code_complexity parseProbe (.pyInt 0) = .err .badType ∧
    measure_code_coverage_metrics parseProbe (.pyInt 0) = .err .badType ∧
    analyze_naming_conventions parseProbe (.pyInt 0) = .err .badType ∧
    calculate_maintainability_index parseProbe (.pyInt 0) = .err .badType ∧
    analyze_error_handling parseProbe (.pyInt 0) = .err .badType ∧
    calculate_code_complexity parseProbe (.pyStr " ") = .err .emptyIn ∧
    measure_code_coverage_metrics parseProbe (.pyStr " ") = .err .emptyIn ∧
    analyze_naming_conventions parseProbe (.pyStr " ") = .err .emptyIn ∧
    calculate_maintainability_index parseProbe (.pyStr " ") = .err .emptyIn ∧
    analyze_error_handling parseProbe (.pyStr " ") = .err .emptyIn ∧
    analyze_documentation_quality parseProbe (.pyStr " ") = .ok (docCore parseProbe " ") :=
  c1_amended_prescan_analyzers parseProbe 0 " " (by decide)

/-- C2 counterexample: a non-string argument makes `analyze_sql_injection`
    raise `TypeError` (the function logs `len(code)` and runs `re` calls
    outside any try block), so the exception crosses the analyzer
    boundary instead of becoming an `{"error", "details"}` record. -/
theorem c2_counterexample :
    analyze_sql_injection (.pyInt 0) = .error .typeErr := by
  rfl

/-- C2 as amended: every analyzer of the core returns a structured
    record, never raising, on every string input; the five pre-scanning
    tree-based analyzers also turn non-string input into an
    Invalid-input-type record, but style, documentation, duplication,
    the seven security sub-scanners and the composite scanner raise
    `TypeError` on non-string input. -/
theorem c2_amended_totality (parse : String → ParseRes) (s : String) (n : Int) :
    calculate_code_complexity parse (.pyInt n) = .err .badType ∧
    measure_code_coverage_metrics parse (.pyInt n) = .err .badType ∧
    analyze_naming_conventions parse (.pyInt n) = .err .badType ∧
    calculate_maintainability_index parse (.pyInt n) = .err .badType ∧
    analyze_error_handling parse (.pyInt n) = .err .badType ∧
    analyze_code_style (.pyStr s) = .ok (styleCore s) ∧
    analyze_documentation_quality parse (.pyStr s) = .ok (docCore parse s) ∧
    calculate_code_duplication (.pyStr s) = .ok (dupCore s) ∧
    analyze_sql_injection (.pyStr s) = .ok (sqlCore s) ∧
    analyze_command_injection (.pyStr s) = .ok (commandCore s) ∧
    analyze_hardcoded_secrets (.pyStr s) = .ok (secretsCore s) ∧
    analyze_path_traversal (.pyStr s) = .ok (pathCore s) ∧
    analyze_unsafe_deserialization (.pyStr s) = .ok (deserializationCore s) ∧
    analyze_xss_vulnerabilities (.pyStr s) = .ok (xssCore s) ∧
    analyze_input_validation (.pyStr s) = .ok (validationCore s) ∧
    comprehensive_security_analysis (.pyStr s) = .ok (compositeCore s) ∧
    analyze_code_style (.pyInt n) = .error .typeErr ∧
    analyze_documentation_quality parse (.pyInt n) = .error .typeErr ∧
    calculate_code_duplication (.pyInt n) = .error .typeErr ∧
    analyze_sql_injection (.pyInt n) = .error .typeErr ∧
    analyze_command_injection (.pyInt n) = .error .typeErr ∧
    analyze_hardcoded_secrets (.pyInt n) = .error .typeErr ∧
    analyze_path_traversal (.pyInt n) = .error .typeErr ∧
    analyze_unsafe_deserialization (.pyInt n) = .error .typeErr ∧
    analyze_xss_vulnerabilities (.pyInt n) = .error .typeErr ∧
    analyze_input_validation (.pyInt n) = .error .typeErr ∧
    comprehensive_security_analysis (.pyInt n) = .error .typeErr :=
  ⟨rfl, rfl, rfl, rfl, rfl, rfl, rfl, rfl, rfl, rfl, rfl, rfl, rfl, rfl, rfl, rfl,
   rfl, rfl, rfl, rfl, rfl, rfl, rfl, rfl, rfl, rfl, rfl⟩

/-- C3 counterexample: on the syntactically invalid input `"def f(:"`
    the Documentation analyzer does not return a ParseFailure record —
    it swallows the syntax error and performs partial line-based
    analysis, returning an ordinary report with zero function and class
    counts. -/
theorem c3_counterexample :
    analyze_documentation_quality parseProbe (.pyStr "def f(:") =
      .ok (docCore parseProbe "def f(:") ∧
    (docCore parseProbe "def f(:").totalLines = 1 ∧
    (docCore parseProbe "def f(:").commentLines = 0 ∧
    (docCore parseProbe "def f(:").functionCount = 0 ∧
    (docCore parseProbe "def f(:").classCount = 0 :=
  ⟨rfl, by decide, by decide, by decide, by decide⟩

/-- C3 as amended: on a syntax failure of a non-blank input, the five
    pre-scanning tree-based analyzers return the Invalid-Python-syntax
    record carrying the parser's best-effort line/offset/text (rendered
    as `"unknown"` when absent) and never attempt partial analysis; the
    Documentation analyzer instead swallows the failure and returns an
    ordinary partial report with zero tree-based counts. -/
theorem c3_amended_parse_failure (parse : String → ParseRes) (code msg : String)
    (l o : Option Nat) (tx : Option String)
    (hblank : pyStrip code ≠ "") (hp : parse code = .failed msg l o tx) :
    calculate_code_complexity parse (.pyStr code) = .err (.badSyn msg l o tx) ∧
    measure_code_coverage_metrics parse (.pyStr code) = .err (.badSyn msg l o tx) ∧
    analyze_naming_conventions parse (.pyStr code) = .err (.badSyn msg l o tx) ∧
    calculate_maintainability_index parse (.pyStr code) = .err (.badSyn msg l o tx) ∧
    analyze_error_handling parse (.pyStr code) = .err (.badSyn msg l o tx) ∧
    analyze_documentation_quality parse (.pyStr code) = .ok (docCore parse code) ∧
    (docCore parse code).functionCount = 0 ∧
    (docCore parse code).classCount = 0 ∧
    (docCore parse code).documentedFunctions = 0 ∧
    (docCore parse code).documentedClasses = 0 ∧
    (docCore parse code).docCoverage = 0 := by
  refine ⟨?_, ?_, ?_, ?_, ?_, rfl, ?_, ?_, ?_, ?_, ?_⟩ <;>
    simp [calculate_code_complexity, measure_code_coverage_metrics,
      analyze_naming_conventions, calculate_maintainability_index,
      analyze_error_handling, docCore, hblank, hp]

/-- Witness for C3-as-amended at the concrete invalid input. -/
theorem c3_witness :
    calculate_code_complexity parseProbe (.pyStr "def f(:") =
      .err (.badSyn "invalid syntax" (some 1) (some 8) (some "def f(:")) ∧
    measure_code_coverage_metrics parseProbe (.pyStr "def f(:") =
      .err (.badSyn "invalid syntax" (some 1) (some 8) (some "def f(:")) ∧
    analyze_naming_conventions parseProbe (.pyStr "def f(:") =
      .err (.badSyn "invalid syntax" (some 1) (some 8) (some "def f(:")) ∧
    calculate_maintainability_index parseProbe (.pyStr "def f(:") =
      .err (.badSyn "invalid syntax" (some 1) (some 8) (some "def f(:")) ∧
    analyze_error_handling parseProbe (.pyStr "def f(:") =
      .err (.badSyn "invalid syntax" (some 1) (some 8) (some "def f(:")) ∧
    analyze_documentation_quality parseProbe (.pyStr "def f(:") =
      .ok (docCore parseProbe "def f(:") ∧
    (docCore parseProbe "def f(:").functionCount = 0 ∧
    (docCore parseProbe "def f(:").classCount = 0 ∧
    (docCore parseProbe "def f(:").documentedFunctions = 0 ∧
    (docCore parseProbe "def f(:").documentedClasses = 0 ∧
    (docCore parseProbe "def f(:").docCoverage = 0 :=
  c3_amended_parse_failure parseProbe "def f(:" "invalid syntax" (some 1) (some 8)
    (some "def f(:") (by decide) (by rfl)

/-- `takeWhile` over a satisfying block followed by a failing character. -/
theorem takeWhile_append_sat (p : Char → Bool) (r : List Char) (q' : Char) (b : List Char)
    (hr : ∀ c ∈ r, p c = true) (hq : p q' = false) :
    (r ++ q' :: b).takeWhile p = r := by
  induction r with
  | nil => simp [List.takeWhile_cons, hq]
  | cons c t ih =>
    have hc := hr c (by simp)
    simp [List.takeWhile_cons, hc, ih (fun d hd => hr d (by simp [hd]))]

/-- The mask worker does not depend on the fuel, once the fuel covers the
    input. -/
theorem maskQF_fuel_eq : ∀ (n : Nat) (l : List Char), l.length ≤ n →
    ∀ f₁ f₂, l.length ≤ f₁ → l.length ≤ f₂ → maskQF f₁ l = maskQF f₂ l := by
  intro n
  induction n with
  | zero =>
    intro l hl f₁ f₂ _ _
    have : l = [] := List.length_eq_zero.mp (Nat.le_antisymm hl (Nat.zero_le _))
    subst this
    cases f₁ <;> cases f₂ <;> rfl
  | succ n ih =>
    intro l hl f₁ f₂ h1 h2
    cases l with
    | nil => cases f₁ <;> cases f₂ <;> rfl
    | cons c t =>
      cases f₁ with
      | zero => simp at h1
      | succ g₁ =>
        cases f₂ with
        | zero => simp at h2
        | succ g₂ =>
          simp only [List.length_cons, Nat.succ_le_succ_iff] at hl h1 h2
          show maskQF (g₁ + 1) (c :: t) = maskQF (g₂ + 1) (c :: t)
          unfold maskQF
          by_cases hc : isQuoteChar c = true
          · simp only [hc, if_true]
            cases hdrop : t.drop ((t.takeWhile (fun d => !isQuoteChar d)).length) with
            | nil => rw [ih t hl g₁ g₂ h1 h2]
            | cons d u =>
              have hu : u.length ≤ t.length := by
                have := congrArg List.length hdrop
                simp only [List.length_drop, List.length_cons] at this
                omega
              by_cases hrun : (t.takeWhile (fun d => !isQuoteChar d)).length = 0
              · simp only [hrun, if_true]
                rw [ih t hl g₁ g₂ h1 h2]
              · simp only [hrun, if_false]
                rw [ih u (le_trans hu hl) g₁ g₂ (le_trans hu h1) (le_trans hu h2)]
          · simp only [hc, if_false]
            rw [ih t hl g₁ g₂ h1 h2]
            rfl

/-- The mask substitution replaces the leftmost quote-delimited literal
    (a quote, a non-empty quote-free run, a quote) by `"***MASKED***"`
    and continues after it. -/
theorem maskQuoted_replaces (a r b : List Char) (q q' : Char)
    (hq : isQuoteChar q = true) (hq' : isQuoteChar q' = true)
    (ha : ∀ c ∈ a, isQuoteChar c = false) (hr : ∀ c ∈ r, isQuoteChar c = false)
    (hne : r ≠ []) :
    maskQuoted (a ++ q :: (r ++ q' :: b)) = a ++ (maskStr ++ maskQuoted b) := by
  induction a with
  | nil =>
    show maskQF ((q :: (r ++ q' :: b)).length) (q :: (r ++ q' :: b)) = [] ++ _
    have hrun : (r ++ q' :: b).takeWhile (fun d => !isQuoteChar d) = r :=
      takeWhile_append_sat _ r q' b (fun c hc => by simp [hr c hc]) (by simp [hq'])
    have hdrop : (r ++ q' :: b).drop r.length = q' :: b := List.drop_left r (q' :: b)
    simp only [List.length_cons, List.nil_append]
    unfold maskQF
    simp only [hq, if_true, hrun, hdrop]
    have hlen : r.length ≠ 0 := fun hc => hne (List.length_eq_zero.mp hc)
    simp only [hlen, if_false]
    have : maskQF ((r ++ q' :: b).length) b = maskQF b.length b := by
      apply maskQF_fuel_eq ((r ++ q' :: b).length) b _ _ _ _ (Nat.le_refl _)
      all_goals simp [List.length_append]
      all_goals omega
    rw [this]
    rfl
  | cons c a' ih =>
    have hc : isQuoteChar c = false := ha c (by simp)
    have ha' : ∀ d ∈ a', isQuoteChar d = false := fun d hd => ha d (by simp [hd])
    show maskQF ((c :: (a' ++ q :: (r ++ q' :: b))).length) _ = _
    simp only [List.length_cons, List.cons_append]
    unfold maskQF
    simp only [hc, if_false]
    have hfuel : maskQF ((a' ++ q :: (r ++ q' :: b)).length) (a' ++ q :: (r ++ q' :: b)) =
        maskQuoted (a' ++ q :: (r ++ q' :: b)) := rfl
    rw [hfuel, ih ha']
    rfl

/-- Every secrets finding's snippet is the masked matched text. -/
theorem secretFindings_code_masked (code : List Char) :
    ∀ f ∈ secretFindings code, ∃ pd ∈ secretPatterns, ∃ pm ∈ rxFinditer pd.1 code,
      f.code = String.mk (maskQuoted pm.2) := by
  intro f hf
  simp only [secretFindings, List.mem_flatMap, List.mem_map] at hf
  obtain ⟨pd, hpd, pm, hpm, rfl⟩ := hf
  exact ⟨pd, hpd, pm, hpm, rfl⟩

/-- C4 counterexample: on the input `password = "password"` the secrets
    scanner emits one finding whose masked snippet
    `password = "***MASKED***"` still contains the original secret
    literal value (`password`) verbatim — the quoted literal is replaced,
    but the value also occurs as the variable name, refuting the claim
    that the snippet never contains the original literal value. -/
theorem c4_counterexample :
    (secretsCore "password = \"password\"").vulnerabilities =
      [{ ftype := "Hardcoded Secret", description := "Hardcoded password", line := 1,
         code := "password = \"***MASKED***\"", severity := "high" }] ∧
    strContains "password = \"***MASKED***\"" "password" = true :=
  ⟨by decide, by decide⟩

/-- C4 as amended: in every secrets finding the snippet is the matched
    text with each quoted literal (quote, non-empty quote-free run,
    quote) replaced by `"***MASKED***"`, so the quoted occurrence of the
    secret never survives — as in the spec's concrete scenario, where
    `password = "secret123"` yields the snippet
    `password = "***MASKED***"` without `secret123`; the secret's value
    can still appear verbatim when it also occurs outside the quotes. -/
theorem c4_amended_masking :
    (∀ (a r b : List Char) (q q' : Char), isQuoteChar q = true → isQuoteChar q' = true →
      (∀ c ∈ a, isQuoteChar c = false) → (∀ c ∈ r, isQuoteChar c = false) → r ≠ [] →
      maskQuoted (a ++ q :: (r ++ q' :: b)) = a ++ (maskStr ++ maskQuoted b)) ∧
    (∀ code : List Char, ∀ f ∈ secretFindings code,
      ∃ pd ∈ secretPatterns, ∃ pm ∈ rxFinditer pd.1 code,
        f.code = String.mk (maskQuoted pm.2)) ∧
    (secretsCore "password = \"secret123\"").vulnerabilities =
      [{ ftype := "Hardcoded Secret", description := "Hardcoded password", line := 1,
         code := "password = \"***MASKED***\"", severity := "high" }] ∧
    strContains "password = \"***MASKED***\"" "secret123" = false :=
  ⟨fun a r b q q' hq hq' ha hr hne => maskQuoted_replaces a r b q q' hq hq' ha hr hne,
   secretFindings_code_masked, by decide, by decide⟩

/-- Witness for C4-as-amended: the masking equation at a concrete
    decomposition. -/
theorem c4_witness :
    maskQuoted ("k = ".toList ++ dqChar :: ("ab".toList ++ dqChar :: "c".toList)) =
      "k = ".toList ++ (maskStr ++ maskQuoted "c".toList) :=
  c4_amended_masking.1 "k = ".toList "ab".toList "c".toList dqChar dqChar rfl rfl
    (by decide) (by decide) (by decide)

